import Mathlib

/-!
# KStars / Ekos scheduler: module state and scheduler job

A shallow embedding of `Ekos::SchedulerModuleState`
(`kstars/ekos/scheduler/schedulermodulestate.cpp`) together with the properties
of its failure counters, sub-state setters, preemptive shutdown, iteration
timer set-up and profile list, followed by `SchedulerJob`
(`kstars/ekos/scheduler/schedulerjob.h`) with its duplicate test, altitude
sentinel, constraint checks, time search, start-time cache, ordering, reset
and state change, and by `EkosLive::NodeManager`
(`kstars/ekos/ekoslive/nodemanager.cpp`) with its handling of authentication
replies and of node disconnects.

Conventions of the embedding

* A member function becomes a function of the object `s` and its parameters; a
  `void` member returns the new object, a member with a result returns the
  result paired with the new object, and a member that emits Qt signals returns
  the new object paired with the list of signals emitted, in order.
* The members are declared in `schedulermodulestate.h`, which is not embedded
  here.  What the functions need of the declarations is made explicit: the
  width in bits of the unsigned failure-counter type is the parameter `w` of
  the increase functions (`uint8_t` members give `w = 8`), an enumeration value
  is represented by the integer of its enumerator, and the inline accessors
  are plain field reads and writes.
* `int` values are integers; the one subtraction on them is wrapped to 32 bits.
-/

namespace Ekos

/-! ## Types used by the module state -/

/-- The macro MAX_FAILURE_ATTEMPTS of schedulermodulestate.cpp, line 12. -/
def MAX_FAILURE_ATTEMPTS : Nat := 5

/-- Enumeration StartupState, a value being the integer of its enumerator. -/
abbrev StartupState := Nat
/-- Enumeration ShutdownState, a value being the integer of its enumerator. -/
abbrev ShutdownState := Nat
/-- Enumeration ParkWaitState, a value being the integer of its enumerator. -/
abbrev ParkWaitState := Nat
/-- Enumeration EkosState, a value being the integer of its enumerator. -/
abbrev EkosState := Nat
/-- Enumeration INDIState, a value being the integer of its enumerator. -/
abbrev INDIState := Nat
/-- Enumeration SchedulerTimerState, a value being the integer of its enumerator. -/
abbrev SchedulerTimerState := Nat

/-- Qt date-time value, reduced to what the module state observes of it: whether
it is valid and, when it is, the instant it denotes (milliseconds since the
epoch).  Several invalid values exist, as in Qt. -/
structure QDateTime where
  isValid : Bool
  msecs : Int
deriving DecidableEq, Repr

/-- The default-constructed date-time, written QDateTime() in the source: it is
not valid. -/
def QDateTime.null : QDateTime := { isValid := false, msecs := 0 }

/-- Qt single-shot timer, reduced to what setupNextIteration observes:
isActive(), the interval it was started with and the value remainingTime()
returns at the moment of the call. -/
structure QTimer where
  isActive : Bool
  interval : Int
  remainingTime : Int
deriving DecidableEq, Repr

/-- QTimer::stop(): the timer is inactive afterwards, and an inactive timer
reports a remaining time of -1. -/
def QTimer.stop (t : QTimer) : QTimer :=
  { t with isActive := false, remainingTime := -1 }

/-- QTimer::start(msec): the interval becomes msec and the timer counts down
from it. -/
def QTimer.start (_t : QTimer) (msec : Int) : QTimer :=
  { isActive := true, interval := msec, remainingTime := msec }

/-- Signals of SchedulerModuleState emitted by the functions embedded here. -/
inductive Signal where
  | currentProfileChanged
  | profilesChanged
  | startupStateChanged (state : StartupState)
  | shutdownStateChanged (state : ShutdownState)
  | parkWaitStateChanged (state : ParkWaitState)
  | ekosStateChanged (state : EkosState)
  | indiStateChanged (state : INDIState)
deriving DecidableEq, Repr

/-- Wrap an integer to the range of a 32 bit two's complement int. -/
def wrapInt32 (x : Int) : Int := (x + 2 ^ 31) % 2 ^ 32 - 2 ^ 31

/-- Pre-increment of an unsigned w-bit counter: the value of ++c. -/
def preIncrement (w : Nat) (c : Nat) : Nat := (c + 1) % 2 ^ w

/-! ## The module state -/

/-- Data members of SchedulerModuleState that schedulermodulestate.cpp reads or
writes. -/
structure SchedulerModuleState where
  m_currentProfile : String
  m_profiles : List String
  m_startupState : StartupState
  m_shutdownState : ShutdownState
  m_parkWaitState : ParkWaitState
  m_ekosState : EkosState
  m_indiState : INDIState
  m_preemptiveShutdownWakeupTime : QDateTime
  m_ekosConnectFailureCount : Nat
  m_indiConnectFailureCount : Nat
  m_captureFailureCount : Nat
  m_focusFailureCount : Nat
  m_guideFailureCount : Nat
  m_alignFailureCount : Nat
  m_parkingCapFailureCount : Nat
  m_parkingMountFailureCount : Nat
  m_parkingDomeFailureCount : Nat
  currentOperationTimeStarted : Bool
  currentOperationTime : QDateTime
  m_restartGuidingInterval : Int
  m_restartGuidingTime : QDateTime
  m_UpdatePeriodMs : Int
  m_timerState : SchedulerTimerState
  m_timerInterval : Int
  m_iterationSetup : Bool
  m_iterationTimer : QTimer
deriving DecidableEq, Repr

/-- A module state with every failure counter at zero, every sub-state at its
first enumerator, no preemptive shutdown pending and a stopped iteration
timer.  The constructor body is empty (schedulermodulestate.cpp, line 16); the
member initialisers are in the header. -/
def freshState : SchedulerModuleState :=
  { m_currentProfile := "Default"
    m_profiles := ["Default"]
    m_startupState := 0
    m_shutdownState := 0
    m_parkWaitState := 0
    m_ekosState := 0
    m_indiState := 0
    m_preemptiveShutdownWakeupTime := QDateTime.null
    m_ekosConnectFailureCount := 0
    m_indiConnectFailureCount := 0
    m_captureFailureCount := 0
    m_focusFailureCount := 0
    m_guideFailureCount := 0
    m_alignFailureCount := 0
    m_parkingCapFailureCount := 0
    m_parkingMountFailureCount := 0
    m_parkingDomeFailureCount := 0
    currentOperationTimeStarted := false
    currentOperationTime := QDateTime.null
    m_restartGuidingInterval := -1
    m_restartGuidingTime := QDateTime.null
    m_UpdatePeriodMs := 1000
    m_timerState := 0
    m_timerInterval := -1
    m_iterationSetup := false
    m_iterationTimer := { isActive := false, interval := 0, remainingTime := -1 } }

/-! ## Sub-state setters (schedulermodulestate.cpp, lines 47-72, 94-102, 159-167) -/

/-- SchedulerModuleState::setStartupState. -/
def setStartupState (s : SchedulerModuleState) (state : StartupState) :
    SchedulerModuleState × List Signal :=
  if s.m_startupState ≠ state then
    ({ s with m_startupState := state }, [Signal.startupStateChanged state])
  else (s, [])

/-- SchedulerModuleState::setShutdownState. -/
def setShutdownState (s : SchedulerModuleState) (state : ShutdownState) :
    SchedulerModuleState × List Signal :=
  if s.m_shutdownState ≠ state then
    ({ s with m_shutdownState := state }, [Signal.shutdownStateChanged state])
  else (s, [])

/-- SchedulerModuleState::setParkWaitState. -/
def setParkWaitState (s : SchedulerModuleState) (state : ParkWaitState) :
    SchedulerModuleState × List Signal :=
  if s.m_parkWaitState ≠ state then
    ({ s with m_parkWaitState := state }, [Signal.parkWaitStateChanged state])
  else (s, [])

/-- SchedulerModuleState::setEkosState (the debug log line is not part of the
state). -/
def setEkosState (s : SchedulerModuleState) (state : EkosState) :
    SchedulerModuleState × List Signal :=
  if s.m_ekosState ≠ state then
    ({ s with m_ekosState := state }, [Signal.ekosStateChanged state])
  else (s, [])

/-- SchedulerModuleState::setIndiState (the debug log line is not part of the
state). -/
def setIndiState (s : SchedulerModuleState) (state : INDIState) :
    SchedulerModuleState × List Signal :=
  if s.m_indiState ≠ state then
    ({ s with m_indiState := state }, [Signal.indiStateChanged state])
  else (s, [])

/-! ## Preemptive shutdown (lines 74-92) -/

/-- SchedulerModuleState::enablePreemptiveShutdown. -/
def enablePreemptiveShutdown (s : SchedulerModuleState) (wakeupTime : QDateTime) :
    SchedulerModuleState :=
  { s with m_preemptiveShutdownWakeupTime := wakeupTime }

/-- SchedulerModuleState::disablePreemptiveShutdown. -/
def disablePreemptiveShutdown (s : SchedulerModuleState) : SchedulerModuleState :=
  { s with m_preemptiveShutdownWakeupTime := QDateTime.null }

/-- SchedulerModuleState::preemptiveShutdownWakeupTime. -/
def preemptiveShutdownWakeupTime (s : SchedulerModuleState) : QDateTime :=
  s.m_preemptiveShutdownWakeupTime

/-- SchedulerModuleState::preemptiveShutdown. -/
def preemptiveShutdown (s : SchedulerModuleState) : Bool :=
  s.m_preemptiveShutdownWakeupTime.isValid

/-! ## Failure counters (lines 104-157, 240-243) -/

/-- SchedulerModuleState::increaseEkosConnectFailureCount. -/
def increaseEkosConnectFailureCount (w : Nat) (s : SchedulerModuleState) :
    Bool × SchedulerModuleState :=
  let c := preIncrement w s.m_ekosConnectFailureCount
  (decide (c ≤ MAX_FAILURE_ATTEMPTS), { s with m_ekosConnectFailureCount := c })

/-- SchedulerModuleState::increaseParkingCapFailureCount. -/
def increaseParkingCapFailureCount (w : Nat) (s : SchedulerModuleState) :
    Bool × SchedulerModuleState :=
  let c := preIncrement w s.m_parkingCapFailureCount
  (decide (c ≤ MAX_FAILURE_ATTEMPTS), { s with m_parkingCapFailureCount := c })

/-- SchedulerModuleState::increaseParkingMountFailureCount. -/
def increaseParkingMountFailureCount (w : Nat) (s : SchedulerModuleState) :
    Bool × SchedulerModuleState :=
  let c := preIncrement w s.m_parkingMountFailureCount
  (decide (c ≤ MAX_FAILURE_ATTEMPTS), { s with m_parkingMountFailureCount := c })

/-- SchedulerModuleState::increaseParkingDomeFailureCount. -/
def increaseParkingDomeFailureCount (w : Nat) (s : SchedulerModuleState) :
    Bool × SchedulerModuleState :=
  let c := preIncrement w s.m_parkingDomeFailureCount
  (decide (c ≤ MAX_FAILURE_ATTEMPTS), { s with m_parkingDomeFailureCount := c })

/-- SchedulerModuleState::increaseIndiConnectFailureCount. -/
def increaseIndiConnectFailureCount (w : Nat) (s : SchedulerModuleState) :
    Bool × SchedulerModuleState :=
  let c := preIncrement w s.m_indiConnectFailureCount
  (decide (c ≤ MAX_FAILURE_ATTEMPTS), { s with m_indiConnectFailureCount := c })

/-- SchedulerModuleState::increaseCaptureFailureCount. -/
def increaseCaptureFailureCount (w : Nat) (s : SchedulerModuleState) :
    Bool × SchedulerModuleState :=
  let c := preIncrement w s.m_captureFailureCount
  (decide (c ≤ MAX_FAILURE_ATTEMPTS), { s with m_captureFailureCount := c })

/-- SchedulerModuleState::increaseFocusFailureCount. -/
def increaseFocusFailureCount (w : Nat) (s : SchedulerModuleState) :
    Bool × SchedulerModuleState :=
  let c := preIncrement w s.m_focusFailureCount
  (decide (c ≤ MAX_FAILURE_ATTEMPTS), { s with m_focusFailureCount := c })

/-- SchedulerModuleState::increaseGuideFailureCount. -/
def increaseGuideFailureCount (w : Nat) (s : SchedulerModuleState) :
    Bool × SchedulerModuleState :=
  let c := preIncrement w s.m_guideFailureCount
  (decide (c ≤ MAX_FAILURE_ATTEMPTS), { s with m_guideFailureCount := c })

/-- SchedulerModuleState::increaseAlignFailureCount. -/
def increaseAlignFailureCount (w : Nat) (s : SchedulerModuleState) :
    Bool × SchedulerModuleState :=
  let c := preIncrement w s.m_alignFailureCount
  (decide (c ≤ MAX_FAILURE_ATTEMPTS), { s with m_alignFailureCount := c })

/-- SchedulerModuleState::maxFailureAttempts. -/
def maxFailureAttempts : Nat := MAX_FAILURE_ATTEMPTS

/-- Modelled from the spec: resetIndiConnectFailureCount is an inline member of
the header schedulermodulestate.h, which is missing; the spec has the reset
zero the counter. -/
def resetIndiConnectFailureCount (s : SchedulerModuleState) : SchedulerModuleState :=
  { s with m_indiConnectFailureCount := 0 }

/-- Modelled from the spec: resetEkosConnectFailureCount is an inline member of
the header schedulermodulestate.h, which is missing; the spec has the reset
zero the counter. -/
def resetEkosConnectFailureCount (s : SchedulerModuleState) : SchedulerModuleState :=
  { s with m_ekosConnectFailureCount := 0 }

/-- Modelled from the spec: resetFocusFailureCount is an inline member of the
header schedulermodulestate.h, which is missing; the spec has the reset zero
the counter. -/
def resetFocusFailureCount (s : SchedulerModuleState) : SchedulerModuleState :=
  { s with m_focusFailureCount := 0 }

/-- Modelled from the spec: resetGuideFailureCount is an inline member of the
header schedulermodulestate.h, which is missing; the spec has the reset zero
the counter. -/
def resetGuideFailureCount (s : SchedulerModuleState) : SchedulerModuleState :=
  { s with m_guideFailureCount := 0 }

/-- Modelled from the spec: resetAlignFailureCount is an inline member of the
header schedulermodulestate.h, which is missing; the spec has the reset zero
the counter. -/
def resetAlignFailureCount (s : SchedulerModuleState) : SchedulerModuleState :=
  { s with m_alignFailureCount := 0 }

/-- Modelled from the spec: resetCaptureFailureCount is an inline member of the
header schedulermodulestate.h, which is missing; the spec has the reset zero
the counter. -/
def resetCaptureFailureCount (s : SchedulerModuleState) : SchedulerModuleState :=
  { s with m_captureFailureCount := 0 }

/-- SchedulerModuleState::resetFailureCounters: the six resets, in the order
of the source. -/
def resetFailureCounters (s : SchedulerModuleState) : SchedulerModuleState :=
  resetCaptureFailureCount
    (resetAlignFailureCount
      (resetGuideFailureCount
        (resetFocusFailureCount
          (resetEkosConnectFailureCount
            (resetIndiConnectFailureCount s)))))

/-! ## Iteration timer set-up (lines 209-238) -/

/-- Modelled from the spec: iterationSetup() is an inline accessor of the
header schedulermodulestate.h, which is missing; it reads the flag that
setIterationSetup writes. -/
def iterationSetup (s : SchedulerModuleState) : Bool := s.m_iterationSetup

/-- Modelled from the spec: setIterationSetup is an inline accessor of the
header schedulermodulestate.h, which is missing; it stores the flag. -/
def setIterationSetup (s : SchedulerModuleState) (setup : Bool) : SchedulerModuleState :=
  { s with m_iterationSetup := setup }

/-- Modelled from the spec: timerState() is an inline accessor of the header
schedulermodulestate.h, which is missing; it reads the state of the next
scheduling pass. -/
def timerState (s : SchedulerModuleState) : SchedulerTimerState := s.m_timerState

/-- Modelled from the spec: setTimerState is an inline accessor of the header
schedulermodulestate.h, which is missing; it stores the state of the next
scheduling pass. -/
def setTimerState (s : SchedulerModuleState) (newTimerState : SchedulerTimerState) :
    SchedulerModuleState :=
  { s with m_timerState := newTimerState }

/-- Modelled from the spec: timerInterval() is an inline accessor of the header
schedulermodulestate.h, which is missing; it reads the delay of the next
scheduling pass. -/
def timerInterval (s : SchedulerModuleState) : Int := s.m_timerInterval

/-- Modelled from the spec: setTimerInterval is an inline accessor of the
header schedulermodulestate.h, which is missing; it stores the delay of the
next scheduling pass. -/
def setTimerInterval (s : SchedulerModuleState) (newTimerInterval : Int) :
    SchedulerModuleState :=
  { s with m_timerInterval := newTimerInterval }

/-- Modelled from the spec: iterationTimer() is an inline accessor of the
header schedulermodulestate.h, which is missing; it gives the iteration
timer. -/
def iterationTimer (s : SchedulerModuleState) : QTimer := s.m_iterationTimer

/-- SchedulerModuleState::setupNextIteration(nextState, milliseconds).  The
debug message written when iterationSetup() already holds is not part of the
state.  The subtraction is an int subtraction. -/
def setupNextIteration (s : SchedulerModuleState) (nextState : SchedulerTimerState)
    (milliseconds : Int) : SchedulerModuleState :=
  let s1 := setTimerState s nextState
  let s2 :=
    if (iterationTimer s1).isActive then
      let remaining := (iterationTimer s1).remainingTime
      let s1a := { s1 with m_iterationTimer := (iterationTimer s1).stop }
      let s1b := setTimerInterval s1a (max 0 (wrapInt32 (milliseconds - remaining)))
      { s1b with m_iterationTimer := (iterationTimer s1b).start (timerInterval s1b) }
    else
      setTimerInterval s1 milliseconds
  setIterationSetup s2 true

/-- SchedulerModuleState::setupNextIteration(nextState), the overload of line
209. -/
def setupNextIterationDefault (s : SchedulerModuleState) (nextState : SchedulerTimerState) :
    SchedulerModuleState :=
  setupNextIteration s nextState s.m_UpdatePeriodMs

/-! ## The nine failure counters, uniformly -/

/-- Names of the nine failure counters of SchedulerModuleState. -/
inductive FailureCounter where
  | ekosConnect
  | indiConnect
  | capture
  | focus
  | guide
  | align
  | parkingCap
  | parkingMount
  | parkingDome
deriving DecidableEq, Repr

/-- Current value of a failure counter. -/
def FailureCounter.get : FailureCounter → SchedulerModuleState → Nat
  | .ekosConnect, s => s.m_ekosConnectFailureCount
  | .indiConnect, s => s.m_indiConnectFailureCount
  | .capture, s => s.m_captureFailureCount
  | .focus, s => s.m_focusFailureCount
  | .guide, s => s.m_guideFailureCount
  | .align, s => s.m_alignFailureCount
  | .parkingCap, s => s.m_parkingCapFailureCount
  | .parkingMount, s => s.m_parkingMountFailureCount
  | .parkingDome, s => s.m_parkingDomeFailureCount

/-- The object with one failure counter overwritten and nothing else touched
(used to state what a call leaves unchanged). -/
def FailureCounter.put : FailureCounter → Nat → SchedulerModuleState → SchedulerModuleState
  | .ekosConnect, n, s => { s with m_ekosConnectFailureCount := n }
  | .indiConnect, n, s => { s with m_indiConnectFailureCount := n }
  | .capture, n, s => { s with m_captureFailureCount := n }
  | .focus, n, s => { s with m_focusFailureCount := n }
  | .guide, n, s => { s with m_guideFailureCount := n }
  | .align, n, s => { s with m_alignFailureCount := n }
  | .parkingCap, n, s => { s with m_parkingCapFailureCount := n }
  | .parkingMount, n, s => { s with m_parkingMountFailureCount := n }
  | .parkingDome, n, s => { s with m_parkingDomeFailureCount := n }

/-- The member function increase<X>FailureCount() of each counter X. -/
def FailureCounter.increase :
    FailureCounter → Nat → SchedulerModuleState → Bool × SchedulerModuleState
  | .ekosConnect => increaseEkosConnectFailureCount
  | .indiConnect => increaseIndiConnectFailureCount
  | .capture => increaseCaptureFailureCount
  | .focus => increaseFocusFailureCount
  | .guide => increaseGuideFailureCount
  | .align => increaseAlignFailureCount
  | .parkingCap => increaseParkingCapFailureCount
  | .parkingMount => increaseParkingMountFailureCount
  | .parkingDome => increaseParkingDomeFailureCount

/-- A call on the failure counters: one of the nine increase functions or
resetFailureCounters. -/
inductive CounterCall where
  | increase (X : FailureCounter)
  | resetFailureCounters
deriving DecidableEq, Repr

/-- Perform one call: the value returned (true for the void reset) and the
object afterwards. -/
def CounterCall.run (w : Nat) : CounterCall → SchedulerModuleState → Bool × SchedulerModuleState
  | .increase X, s => X.increase w s
  | .resetFailureCounters, s => (true, Ekos.resetFailureCounters s)

/-- The object after a sequence of calls, performed left to right. -/
def runCalls (w : Nat) : List CounterCall → SchedulerModuleState → SchedulerModuleState
  | [], s => s
  | c :: cs, s => runCalls w cs (c.run w s).2

/-- Whether every increase call of the sequence returned true. -/
def allReturnedTrue (w : Nat) : List CounterCall → SchedulerModuleState → Bool
  | [], _ => true
  | c :: cs, s => (c.run w s).1 && allReturnedTrue w cs (c.run w s).2

/-- The object after n successive calls of increaseFocusFailureCount(). -/
def focusCalls (w : Nat) : Nat → SchedulerModuleState → SchedulerModuleState
  | 0, s => s
  | n + 1, s => (increaseFocusFailureCount w (focusCalls w n s)).2

/-! ## Profiles (schedulermodulestate.cpp, lines 18-45) -/

/-- Modelled from the spec: currentProfile() is an inline accessor of the
header schedulermodulestate.h, which is missing; it reads the selected
profile. -/
def currentProfile (s : SchedulerModuleState) : String := s.m_currentProfile

/-- SchedulerModuleState::setCurrentProfile(newName, signal).  QStringList
contains and QString comparison are case sensitive, that is list membership and
string equality.  QList::first() requires a non-empty list: on an empty list
the call has no result. -/
def setCurrentProfile (s : SchedulerModuleState) (newName : String) (signal : Bool) :
    Option (SchedulerModuleState × List Signal) :=
  let changed : Bool := decide (newName ≠ s.m_currentProfile)
  if newName ∈ s.m_profiles then
    some ({ s with m_currentProfile := newName },
      if signal && changed then [Signal.currentProfileChanged] else [])
  else
    match s.m_profiles.head? with
    | none => none
    | some first =>
      let changed : Bool := decide (s.m_currentProfile ≠ first)
      some ({ s with m_currentProfile := first },
        if signal && changed then [Signal.currentProfileChanged] else [])

/-- SchedulerModuleState::updateProfiles(newProfiles).  The KDE translation
function i18n is a parameter: the sentinel entry is i18n("Default"), which is
the string "Default" itself when no translation is installed. -/
def updateProfiles (i18n : String → String) (s : SchedulerModuleState)
    (newProfiles : List String) : Option (SchedulerModuleState × List Signal) :=
  let selected := currentProfile s
  let allProfiles := [i18n "Default"] ++ newProfiles
  let s1 := { s with m_profiles := allProfiles }
  match setCurrentProfile s1 selected false with
  | none => none
  | some (s2, emitted) => some (s2, emitted ++ [Signal.profilesChanged])

/-! # Scheduler job (kstars/ekos/scheduler/schedulerjob.h)

The class declaration with its inline members and member initialisers is
embedded from the header.  The members defined in schedulerjob.cpp are not
embedded from code; those the properties below speak of are modelled from the
specification and say so. -/

/-- A C++ double as far as comparison goes: a finite value (the rational it
denotes), an infinity or a NaN. -/
inductive Double where
  | finite (q : ℚ)
  | posInf
  | negInf
  | nan
deriving DecidableEq, Repr

/-- The operator < on doubles: false as soon as one side is a NaN. -/
def Double.lt : Double → Double → Bool
  | .nan, _ => false
  | _, .nan => false
  | .finite a, .finite b => decide (a < b)
  | .finite _, .posInf => true
  | .finite _, .negInf => false
  | .posInf, _ => false
  | .negInf, .negInf => false
  | .negInf, _ => true

/-- Conversion of an int to double. -/
def Double.ofInt (n : Int) : Double := .finite n

/-- The operator <= on Qt date-times, which orders them by their instant. -/
def QDateTime.le (a b : QDateTime) : Bool := decide (a.msecs ≤ b.msecs)

/-- The operator < on Qt date-times, which orders them by their instant. -/
def QDateTime.lt (a b : QDateTime) : Bool := decide (a.msecs < b.msecs)

/-- Qt URL, compared as a whole. -/
structure QUrl where
  url : String
deriving DecidableEq, Repr

/-- Sky position of skypoint.h, reduced to its catalogue coordinates. -/
structure SkyPoint where
  ra0 : Double
  dec0 : Double
deriving DecidableEq, Repr

/-- SchedulerJob::JOBStatus. -/
inductive JOBStatus where
  | JOB_IDLE
  | JOB_EVALUATION
  | JOB_SCHEDULED
  | JOB_BUSY
  | JOB_ERROR
  | JOB_ABORTED
  | JOB_INVALID
  | JOB_COMPLETE
deriving DecidableEq, Repr

/-- SchedulerJob::JOBStage. -/
inductive JOBStage where
  | STAGE_IDLE
  | STAGE_SLEWING
  | STAGE_SLEW_COMPLETE
  | STAGE_FOCUSING
  | STAGE_FOCUS_COMPLETE
  | STAGE_ALIGNING
  | STAGE_ALIGN_COMPLETE
  | STAGE_RESLEWING
  | STAGE_RESLEWING_COMPLETE
  | STAGE_POSTALIGN_FOCUSING
  | STAGE_POSTALIGN_FOCUSING_COMPLETE
  | STAGE_GUIDING
  | STAGE_GUIDING_COMPLETE
  | STAGE_CAPTURING
  | STAGE_COMPLETE
deriving DecidableEq, Repr

/-- SchedulerJob::StartupCondition. -/
inductive StartupCondition where
  | START_ASAP
  | START_AT
deriving DecidableEq, Repr

/-- SchedulerJob::CompletionCondition. -/
inductive CompletionCondition where
  | FINISH_SEQUENCE
  | FINISH_REPEAT
  | FINISH_LOOP
  | FINISH_AT
deriving DecidableEq, Repr

/-- One record of StartTimeCache: a query interval and the start time that was
computed for it. -/
structure StartTimeComputation where
  from_ : QDateTime
  until_ : QDateTime
  result : QDateTime
deriving DecidableEq, Repr

/-- SchedulerJob::StartTimeCache: the list of computations recorded so far. -/
structure StartTimeCache where
  startComputations : List StartTimeComputation
deriving DecidableEq, Repr

/-- SchedulerJob::UNDEFINED_ALTITUDE. -/
def UNDEFINED_ALTITUDE : Int := -90

/-- Data members of SchedulerJob, the widget pointers and the Moon pointer
apart.  StepPipeline is a mask and is kept as a number. -/
structure SchedulerJob where
  name : String
  group : String
  completedIterations : Int
  targetCoords : SkyPoint
  m_PositionAngle : Double
  state : JOBStatus
  stage : JOBStage
  stateTime : QDateTime
  lastAbortTime : QDateTime
  lastErrorTime : QDateTime
  fileStartupCondition : StartupCondition
  startupCondition : StartupCondition
  completionCondition : CompletionCondition
  sequenceCount : Int
  completedCount : Int
  fileStartupTime : QDateTime
  startupTime : QDateTime
  completionTime : QDateTime
  greedyCompletionTime : QDateTime
  stopReason : String
  altitudeAtStartup : Double
  altitudeAtCompletion : Double
  isSettingAtStartup : Bool
  isSettingAtCompletion : Bool
  sequenceFile : QUrl
  fitsFile : QUrl
  minAltitude : Double
  minMoonSeparation : Double
  enforceWeather : Bool
  enforceTwilight : Bool
  enforceArtificialHorizon : Bool
  nextDawn : QDateTime
  nextDusk : QDateTime
  stepPipeline : Nat
  estimatedTime : Int
  estimatedTimePerRepeat : Int
  estimatedStartupTime : Int
  estimatedTimeLeftThisRepeat : Int
  repeatsRequired : Nat
  repeatsRemaining : Nat
  inSequenceFocus : Bool
  m_InitialFilter : String
  dateTimeDisplayFormat : String
  lightFramesRequired : Bool
  capturedFramesMap : List (String × Nat)
  startTimeCache : StartTimeCache
deriving DecidableEq, Repr

/-- A job whose members have the values of their initialisers in the class
declaration (lines 689-803); strings, URLs and date-times are default
constructed. -/
def freshJob : SchedulerJob :=
  { name := ""
    group := ""
    completedIterations := 0
    targetCoords := { ra0 := .finite 0, dec0 := .finite 0 }
    m_PositionAngle := .finite (-1)
    state := .JOB_IDLE
    stage := .STAGE_IDLE
    stateTime := QDateTime.null
    lastAbortTime := QDateTime.null
    lastErrorTime := QDateTime.null
    fileStartupCondition := .START_ASAP
    startupCondition := .START_ASAP
    completionCondition := .FINISH_SEQUENCE
    sequenceCount := 0
    completedCount := 0
    fileStartupTime := QDateTime.null
    startupTime := QDateTime.null
    completionTime := QDateTime.null
    greedyCompletionTime := QDateTime.null
    stopReason := ""
    altitudeAtStartup := .finite 0
    altitudeAtCompletion := .finite 0
    isSettingAtStartup := false
    isSettingAtCompletion := false
    sequenceFile := { url := "" }
    fitsFile := { url := "" }
    minAltitude := Double.ofInt UNDEFINED_ALTITUDE
    minMoonSeparation := .finite (-1)
    enforceWeather := false
    enforceTwilight := false
    enforceArtificialHorizon := false
    nextDawn := QDateTime.null
    nextDusk := QDateTime.null
    stepPipeline := 0
    estimatedTime := -1
    estimatedTimePerRepeat := 0
    estimatedStartupTime := 0
    estimatedTimeLeftThisRepeat := 0
    repeatsRequired := 1
    repeatsRemaining := 1
    inSequenceFocus := false
    m_InitialFilter := ""
    dateTimeDisplayFormat := ""
    lightFramesRequired := false
    capturedFramesMap := []
    startTimeCache := { startComputations := [] } }

/-- SchedulerJob::hasMinAltitude (line 136). -/
def SchedulerJob.hasMinAltitude (j : SchedulerJob) : Bool :=
  Double.lt (Double.ofInt UNDEFINED_ALTITUDE) j.minAltitude

/-- SchedulerJob::isDuplicateOf (line 521).  Objects are told apart by their
address: jobs gives the object at each address, and the two arguments are the
addresses of this and of a_job. -/
def isDuplicateOf (jobs : Nat → SchedulerJob) (this a_job : Nat) : Bool :=
  decide (this ≠ a_job) && decide ((jobs this).name = (jobs a_job).name) &&
    decide ((jobs this).sequenceFile = (jobs a_job).sequenceFile)

/-! ## Constraint evaluation (modelled from the specification, section 4.1) -/

/-- Ground on which a constraint check fails; it stands for the reason text
handed back to the caller. -/
inductive ConstraintFailure where
  | minAltitude
  | artificialHorizon
  | moonSeparation
  | twilight
deriving DecidableEq, Repr

/-- What the constraint checks ask of the astronomical context at the time of
the check: the artificial-horizon query isBelowHorizon(azimuth, altitude), the
current separation of the target from the Moon, and whether the time lies in
the astronomical-night window. -/
structure AstronomicalContext where
  isBelowHorizon : Double → Double → Bool
  moonSeparation : Double
  inAstronomicalNight : Bool

/-- Modelled from the spec: satisfiesAltitudeConstraint is defined in
schedulerjob.cpp, which is missing.  The check fails if the min-altitude is
defined and the altitude is below it; with artificial-horizon enforcement on
it consults the horizon profile at the given azimuth; on failure it gives the
reason. -/
def satisfiesAltitudeConstraint (ctx : AstronomicalContext) (j : SchedulerJob)
    (azimuth altitude : Double) : Bool × Option ConstraintFailure :=
  if j.hasMinAltitude && Double.lt altitude j.minAltitude then
    (false, some ConstraintFailure.minAltitude)
  else if j.enforceArtificialHorizon && ctx.isBelowHorizon azimuth altitude then
    (false, some ConstraintFailure.artificialHorizon)
  else (true, none)

/-- Modelled from the spec: whether the min-Moon-separation of a job is
defined.  The member starts at -1 (line 730) and a separation is an angle, so
a positive value counts as defined. -/
def SchedulerJob.hasMinMoonSeparation (j : SchedulerJob) : Bool :=
  Double.lt (Double.ofInt 0) j.minMoonSeparation

/-- Modelled from the spec: satisfiesConstraints(job, azimuth, altitude) of
section 4.1, defined in schedulerjob.cpp, which is missing.  It fails on the
altitude check, then if the min-Moon-separation is defined and the current
separation is below it, then if twilight is enforced and the time is not in
the astronomical night; on failure it gives the reason. -/
def satisfiesConstraints (ctx : AstronomicalContext) (j : SchedulerJob)
    (azimuth altitude : Double) : Bool × Option ConstraintFailure :=
  match satisfiesAltitudeConstraint ctx j azimuth altitude with
  | (false, reason) => (false, reason)
  | (true, _) =>
    if j.hasMinMoonSeparation && Double.lt ctx.moonSeparation j.minMoonSeparation then
      (false, some ConstraintFailure.moonSeparation)
    else if j.enforceTwilight && !ctx.inAstronomicalNight then
      (false, some ConstraintFailure.twilight)
    else (true, none)

/-! ## Time search (modelled from the specification, section 4.2) -/

/-- Number of steps of stepMsecs milliseconds, counted from the instant when,
that start before the instant until_. -/
def stepsBefore (when until_ stepMsecs : Int) : Nat :=
  Int.toNat ((until_ - when + stepMsecs - 1) / stepMsecs)

/-- The stepping loop of calculateNextTime: try the instant t, then t plus one
step, for n steps; the first instant where the constraint predicate has the
wanted value is the result, and the invalid date-time if there is none. -/
def calculateNextTimeLoop (constraintsMet : Int → Bool) (checkIfConstraintsAreMet : Bool)
    (stepMsecs : Int) : Nat → Int → QDateTime
  | 0, _ => QDateTime.null
  | n + 1, t =>
    if constraintsMet t = checkIfConstraintsAreMet then { isValid := true, msecs := t }
    else calculateNextTimeLoop constraintsMet checkIfConstraintsAreMet stepMsecs n (t + stepMsecs)

/-- Modelled from the spec: calculateNextTime is defined in schedulerjob.cpp,
which is missing.  From the instant when it steps forward in steps of
increment minutes until the constraint predicate is met (flag true) or missed
(flag false), or until_ is reached; it returns the invalid date-time on
exhaustion and when the window is empty (when at or after until_).  The
constraint predicate of the job over time is the parameter constraintsMet;
increment is a positive number of minutes. -/
def calculateNextTime (constraintsMet : Int → Bool) (when : Int)
    (checkIfConstraintsAreMet : Bool) (increment : Int) (until_ : Int) : QDateTime :=
  calculateNextTimeLoop constraintsMet checkIfConstraintsAreMet (increment * 60000)
    (stepsBefore when until_ (increment * 60000)) when

/-! ## Start-time cache (modelled from the specification, section 4.3) -/

/-- Whether a cached computation answers the query (from_, until_): its stored
interval contains the requested one. -/
def StartTimeComputation.covers (c : StartTimeComputation) (from_ until_ : QDateTime) : Bool :=
  QDateTime.le c.from_ from_ && QDateTime.le until_ c.until_

/-- Modelled from the spec: StartTimeCache::check is defined in
schedulerjob.cpp, which is missing.  The result is (hit, result, newFrom): the
first cached entry whose interval contains the query gives a hit with its
stored result and, when its from is earlier than the query from, that from as
the hint; without such an entry it is a miss. -/
def StartTimeCache.check (cache : StartTimeCache) (from_ until_ : QDateTime) :
    Bool × QDateTime × QDateTime :=
  match cache.startComputations.find? (fun c => c.covers from_ until_) with
  | some c => (true, c.result, if QDateTime.lt c.from_ from_ then c.from_ else QDateTime.null)
  | none => (false, QDateTime.null, QDateTime.null)

/-- Modelled from the spec: StartTimeCache::add is defined in schedulerjob.cpp,
which is missing; it appends the computation, nothing is evicted. -/
def StartTimeCache.add (cache : StartTimeCache) (from_ until_ result : QDateTime) :
    StartTimeCache :=
  { startComputations := cache.startComputations ++
      [{ from_ := from_, until_ := until_, result := result }] }

/-- Modelled from the spec: StartTimeCache::clear is defined in
schedulerjob.cpp, which is missing; it empties the cache. -/
def StartTimeCache.clear (_cache : StartTimeCache) : StartTimeCache :=
  { startComputations := [] }

/-- SchedulerJob::clearCache (line 644). -/
def SchedulerJob.clearCache (j : SchedulerJob) : SchedulerJob :=
  { j with startTimeCache := j.startTimeCache.clear }

/-! ## Ordering, reset and state (modelled from the specification) -/

/-- Modelled from the spec: decreasingAltitudeOrder is defined in
schedulerjob.cpp, which is missing.  The time is when or, if when is omitted
(not valid), the startup time of a; findAltitude gives altitude and is-setting
flag of a target at a time.  A job that is setting sorts before one that is not;
otherwise the higher altitude sorts first. -/
def decreasingAltitudeOrder (findAltitude : SkyPoint → QDateTime → Double × Bool)
    (a b : SchedulerJob) (when : QDateTime) : Bool :=
  let t := if when.isValid then when else a.startupTime
  let altA := findAltitude a.targetCoords t
  let altB := findAltitude b.targetCoords t
  if altA.2 && !altB.2 then true
  else if !altA.2 && altB.2 then false
  else Double.lt altB.1 altA.1

/-- Modelled from the spec: reset is defined in schedulerjob.cpp, which is
missing.  The job goes back to idle state and stage, to the original startup
condition, with no startup time if that is as-soon-as-possible and the
original time otherwise, with its estimates cleared (the duration not
estimated, -1 as in the member initialiser) and with the full repeat count. -/
def SchedulerJob.reset (j : SchedulerJob) : SchedulerJob :=
  { j with
    state := JOBStatus.JOB_IDLE
    stage := JOBStage.STAGE_IDLE
    startupCondition := j.fileStartupCondition
    startupTime :=
      if j.fileStartupCondition = StartupCondition.START_ASAP then QDateTime.null
      else j.fileStartupTime
    estimatedTime := -1
    estimatedTimePerRepeat := 0
    estimatedStartupTime := 0
    estimatedTimeLeftThisRepeat := 0
    repeatsRemaining := j.repeatsRequired }

/-- Modelled from the spec: setState is defined in schedulerjob.cpp, which is
missing.  The state is stored; setting JOB_ABORTED resets the startup
condition and time to the file-authored originals, setting JOB_INVALID does
the same and resets the duration estimation. -/
def SchedulerJob.setState (j : SchedulerJob) (value : JOBStatus) : SchedulerJob :=
  match value with
  | JOBStatus.JOB_ABORTED =>
    { j with
      state := value
      startupCondition := j.fileStartupCondition
      startupTime := j.fileStartupTime }
  | JOBStatus.JOB_INVALID =>
    { j with
      state := value
      startupCondition := j.fileStartupCondition
      startupTime := j.fileStartupTime
      estimatedTime := -1 }
  | _ => { j with state := value }

/-! ## Consecutive calls of one increase function -/

/-- The object after n consecutive calls of increase<X>FailureCount(), with no
other call in between. -/
def FailureCounter.increaseCalls (X : FailureCounter) (w : Nat) :
    Nat → SchedulerModuleState → SchedulerModuleState
  | 0, s => s
  | n + 1, s => (X.increase w (X.increaseCalls w n s)).2

end Ekos

/-! # EkosLive node manager (kstars/ekos/ekoslive/nodemanager.cpp)

The class declaration is in nodemanager.h and the nodes are in node.h; neither
is embedded.  What onResult and setDisconnected need of them is made explicit:
the constant RECONNECT_MAX_TRIES and the width in bits w of the unsigned retry
counter are parameters, and a node is reduced to its connection flag and the
authentication response handed to it.  A member function returns the new
object paired with the list of what it emits and requests, in order; the
release of the reply object with deleteLater() is not part of the state. -/

namespace EkosLive

/-- The error of a QNetworkReply, as far as onResult tells the codes apart. -/
inductive NetworkError where
  | NoError
  | ConnectionRefusedError
  | OtherError
deriving DecidableEq, Repr

/-- The JSON object of the server response, as far as onResult reads it: the
value of ["success"].toBool() and of ["message"].toString(). -/
structure QJsonObject where
  success : Bool
  message : String
deriving DecidableEq, Repr

/-- Outcome of QJsonDocument::fromJson(reply->readAll(), &error): a parse error
with its text, or the object of the parsed document. -/
inductive JsonParse where
  | parseError (errorString : String)
  | document (object : QJsonObject)
deriving DecidableEq, Repr

/-- A finished network reply: error(), errorString() and the parse of its
content. -/
structure QNetworkReply where
  error : NetworkError
  errorString : String
  content : JsonParse
deriving DecidableEq, Repr

/-- A node: isConnected() and the response given to it by setAuthResponse. -/
structure Node where
  isConnected : Bool
  authResponse : Option QJsonObject
deriving DecidableEq, Repr

/-- Text of an authenticationError signal: which of the three messages of
onResult it is, with the text that is put into it. -/
inductive AuthenticationErrorText where
  | network (errorString : String)
  | parsing (errorString : String)
  | server (message : String)
deriving DecidableEq, Repr

/-- What the member functions emit or request: the signals connected,
disconnected and authenticationError, the single-shot timer that calls
authenticate() after RECONNECT_INTERVAL, and connectServer() on a node. -/
inductive Effect where
  | connected
  | disconnected
  | authenticationError (message : AuthenticationErrorText)
  | singleShotAuthenticate
  | connectServer (node : String)
deriving DecidableEq, Repr

/-- Data members of NodeManager that nodemanager.cpp reads or writes; m_Nodes
is the map from node name to node, in key order. -/
structure NodeManager where
  m_Nodes : List (String × Node)
  m_ReconnectTries : Nat
  m_AuthResponse : QJsonObject
  m_Username : String
  m_Password : String
deriving DecidableEq, Repr

/-- The value an unsigned w-bit counter holds after c++. -/
def postIncrement (w : Nat) (c : Nat) : Nat := (c + 1) % 2 ^ w

/-- NodeManager::isConnected (line 51): all nodes are connected. -/
def isConnected (m : NodeManager) : Bool :=
  m.m_Nodes.all (fun node => node.2.isConnected)

/-- NodeManager::setConnected (line 62); sender is the name of the node that
sent the signal, or none when the sender is not a node. -/
def setConnected (m : NodeManager) (sender : Option String) : List Effect :=
  match sender with
  | none => []
  | some _ =>
    if m.m_Nodes.all (fun node => node.2.isConnected) then [Effect.connected] else []

/-- NodeManager::setDisconnected (line 81); sender is the name of the node that
sent the signal, or none when the sender is not a node. -/
def setDisconnected (m : NodeManager) (sender : Option String) : List Effect :=
  match sender with
  | none => []
  | some _ =>
    if isConnected m = false then [Effect.disconnected] else []

/-- NodeManager::onResult (line 133).  The operand m_ReconnectTries++ is
evaluated, and the counter incremented, only when the error is
ConnectionRefusedError; the comparison uses the value before the increment. -/
def onResult (w RECONNECT_MAX_TRIES : Nat) (m : NodeManager) (reply : QNetworkReply) :
    NodeManager × List Effect :=
  if reply.error ≠ NetworkError.NoError then
    if reply.error = NetworkError.ConnectionRefusedError then
      let tries := m.m_ReconnectTries
      let m1 := { m with m_ReconnectTries := postIncrement w tries }
      if tries < RECONNECT_MAX_TRIES then
        (m1, [Effect.singleShotAuthenticate])
      else
        ({ m1 with m_ReconnectTries := 0 },
          [Effect.authenticationError (AuthenticationErrorText.network reply.errorString)])
    else
      ({ m with m_ReconnectTries := 0 },
        [Effect.authenticationError (AuthenticationErrorText.network reply.errorString)])
  else
    let m1 := { m with m_ReconnectTries := 0 }
    match reply.content with
    | JsonParse.parseError errorString =>
      (m1, [Effect.authenticationError (AuthenticationErrorText.parsing errorString)])
    | JsonParse.document object =>
      let m2 := { m1 with m_AuthResponse := object }
      if object.success = false then
        (m2, [Effect.authenticationError (AuthenticationErrorText.server object.message)])
      else
        ({ m2 with
            m_Nodes := m2.m_Nodes.map
              (fun node => (node.1, { node.2 with authResponse := some object })) },
          m2.m_Nodes.map (fun node => Effect.connectServer node.1))

/-- The object after a sequence of replies, handled in order. -/
def afterReplies (w RECONNECT_MAX_TRIES : Nat) :
    List QNetworkReply → NodeManager → NodeManager
  | [], m => m
  | reply :: replies, m =>
    afterReplies w RECONNECT_MAX_TRIES replies (onResult w RECONNECT_MAX_TRIES m reply).1

/-- A manager with the nodes message (connected) and media (disconnected) and
a zero retry counter. -/
def sampleManager : NodeManager :=
  { m_Nodes :=
      [("media", { isConnected := false, authResponse := none }),
        ("message", { isConnected := true, authResponse := none })]
    m_ReconnectTries := 0
    m_AuthResponse := { success := false, message := "" }
    m_Username := ""
    m_Password := "" }

/-- A reply whose connection was refused. -/
def refusedReply : QNetworkReply :=
  { error := NetworkError.ConnectionRefusedError
    errorString := "Connection refused"
    content := JsonParse.parseError "" }

end EkosLive

/-! # Properties -/

namespace Ekos

/-! ## Helper lemmas -/

/-- Each increase function is: pre-increment the counter, compare with the
maximum. -/
theorem FailureCounter.increase_eq (X : FailureCounter) (w : Nat) (s : SchedulerModuleState) :
    X.increase w s =
      (decide (preIncrement w (X.get s) ≤ MAX_FAILURE_ATTEMPTS),
        X.put (preIncrement w (X.get s)) s) := by
  cases X <;> rfl

/-- Reading a counter that was just written. -/
theorem FailureCounter.get_put (X : FailureCounter) (n : Nat) (s : SchedulerModuleState) :
    X.get (X.put n s) = n := by
  cases X <;> rfl

/-- Writing one counter leaves the others as they were. -/
theorem FailureCounter.get_put_of_ne (X Y : FailureCounter) (n : Nat) (s : SchedulerModuleState)
    (h : Y ≠ X) : Y.get (X.put n s) = Y.get s := by
  cases X <;> cases Y <;> first | exact absurd rfl h | rfl

/-- Writing back the value a counter already has changes nothing. -/
theorem FailureCounter.put_get (X : FailureCounter) (s : SchedulerModuleState) :
    X.put (X.get s) s = s := by
  cases X <;> rfl

/-- Writing a counter twice keeps the second value. -/
theorem FailureCounter.put_put (X : FailureCounter) (m n : Nat) (s : SchedulerModuleState) :
    X.put m (X.put n s) = X.put m s := by
  cases X <;> rfl

/-- A pre-increment that does not overflow adds one. -/
theorem preIncrement_of_lt (w c : Nat) (h : c + 1 < 2 ^ w) : preIncrement w c = c + 1 :=
  Nat.mod_eq_of_lt h

/-- At the largest value of the counter type, whatever its width, the
pre-increment wraps to zero: the call returns true and leaves the counter at
zero. -/
theorem FailureCounter.increase_at_type_max (X : FailureCounter) (w : Nat)
    (s : SchedulerModuleState) (h : X.get s + 1 = 2 ^ w) :
    (X.increase w s).1 = true ∧ X.get (X.increase w s).2 = 0 := by
  have hz : preIncrement w (X.get s) = 0 := by
    unfold preIncrement
    rw [h]
    exact Nat.mod_self _
  rw [FailureCounter.increase_eq, hz, FailureCounter.get_put]
  exact ⟨rfl, rfl⟩

/-- Pre-increment of zero is at most one, whatever the width. -/
theorem preIncrement_zero_le (w : Nat) : preIncrement w 0 ≤ 1 := by
  unfold preIncrement
  exact Nat.mod_le _ _

/-- After resetFailureCounters a counter is zero when it is one of the six the
function resets, and keeps its value when it is a parking counter. -/
theorem get_resetFailureCounters (X : FailureCounter) (s : SchedulerModuleState) :
    X.get (resetFailureCounters s) =
      if X = .parkingCap ∨ X = .parkingMount ∨ X = .parkingDome then X.get s else 0 := by
  cases X <;>
    simp [FailureCounter.get, resetFailureCounters, resetCaptureFailureCount,
      resetAlignFailureCount, resetGuideFailureCount, resetFocusFailureCount,
      resetEkosConnectFailureCount, resetIndiConnectFailureCount]

/-- From a zero focus counter, k calls of increaseFocusFailureCount leave the
counter at k, as long as k is representable. -/
theorem focusCalls_count (w : Nat) (s : SchedulerModuleState) (h0 : s.m_focusFailureCount = 0)
    (k : Nat) (hk : k < 2 ^ w) : (focusCalls w k s).m_focusFailureCount = k := by
  induction k with
  | zero => exact h0
  | succ n ih =>
    have hn : (focusCalls w n s).m_focusFailureCount = n := ih (by omega)
    show preIncrement w (focusCalls w n s).m_focusFailureCount = n + 1
    rw [hn]
    exact preIncrement_of_lt w n hk

/-- The value increaseFocusFailureCount returns, in terms of the counter. -/
theorem increaseFocusFailureCount_fst (w : Nat) (s : SchedulerModuleState) :
    (increaseFocusFailureCount w s).1 =
      decide (preIncrement w s.m_focusFailureCount ≤ MAX_FAILURE_ATTEMPTS) := rfl

/-! ## Failure counters -/

/-- C1 (as amended): for every failure counter X (Ekos connect, INDI connect,
capture, focus, guide, align and the three parking counters), every width w of
the counter type and every module state whose count n for X is below the
largest value of that type (n + 1 < 2^w), one call of increase<X>FailureCount()
leaves the counter at n + 1 and returns true if and only if n + 1 <= 5, and 5
is the value of maxFailureAttempts(). -/
theorem increase_failure_count_below_type_max (X : FailureCounter) (w : Nat)
    (s : SchedulerModuleState) (h : X.get s + 1 < 2 ^ w) :
    X.get (X.increase w s).2 = X.get s + 1 ∧
      ((X.increase w s).1 = true ↔ X.get s + 1 ≤ 5) ∧
      maxFailureAttempts = 5 := by
  rw [FailureCounter.increase_eq, preIncrement_of_lt w _ h]
  refine ⟨FailureCounter.get_put X _ s, ?_, rfl⟩
  simp [MAX_FAILURE_ATTEMPTS]

/-- Witness of C1 (as amended): the focus counter of an 8 bit counter type at
5; the call leaves it at 6 and returns false. -/
theorem increase_failure_count_below_type_max_witness :
    FailureCounter.focus.get (FailureCounter.focus.put 5 freshState) + 1 < 2 ^ 8 ∧
      FailureCounter.focus.get
          (FailureCounter.focus.increase 8 (FailureCounter.focus.put 5 freshState)).2 = 6 ∧
      (FailureCounter.focus.increase 8 (FailureCounter.focus.put 5 freshState)).1 = false :=
  have h := increase_failure_count_below_type_max FailureCounter.focus 8
    (FailureCounter.focus.put 5 freshState) (by decide)
  ⟨by decide, h.1, by
    cases hb : (FailureCounter.focus.increase 8 (FailureCounter.focus.put 5 freshState)).1
    · rfl
    · exact absurd (h.2.1.mp hb) (by decide)⟩

/-- Counterexample to C1 as stated: with an 8 bit counter type and the focus
counter at n = 255, increaseFocusFailureCount() leaves the counter at 0, not
at n + 1 = 256, and returns true although n + 1 <= 5 is false. -/
theorem increase_failure_count_wraps_at_type_max :
    (FailureCounter.focus.put 255 freshState).m_focusFailureCount = 255 ∧
      (increaseFocusFailureCount 8 (FailureCounter.focus.put 255 freshState)).2.m_focusFailureCount
        = 0 ∧
      (increaseFocusFailureCount 8 (FailureCounter.focus.put 255 freshState)).1 = true ∧
      ¬ ((increaseFocusFailureCount 8
            (FailureCounter.focus.put 255 freshState)).2.m_focusFailureCount = 255 + 1) ∧
      ¬ ((increaseFocusFailureCount 8 (FailureCounter.focus.put 255 freshState)).1 = true ↔
            255 + 1 ≤ 5) := by
  decide

/-- C2: for a counter type of at least 3 bits (every C++ integer type has at
least 8) and a module state whose focus failure counter is zero, each of the
first 5 calls of increaseFocusFailureCount() returns true, the 6th call
returns false, and after a following resetFailureCounters() the next call of
increaseFocusFailureCount() returns true again. -/
theorem focus_failure_five_true_sixth_false_reset (w : Nat) (s : SchedulerModuleState)
    (hw : 3 ≤ w) (h0 : s.m_focusFailureCount = 0) :
    (∀ k, k < 5 → (increaseFocusFailureCount w (focusCalls w k s)).1 = true) ∧
      (increaseFocusFailureCount w (focusCalls w 5 s)).1 = false ∧
      (increaseFocusFailureCount w (resetFailureCounters (focusCalls w 6 s))).1 = true := by
  have h8 : 2 ^ 3 ≤ 2 ^ w := Nat.pow_le_pow_right (by decide) hw
  have h8v : (2 : Nat) ^ 3 = 8 := by decide
  refine ⟨?_, ?_, ?_⟩
  · intro k hk
    rw [increaseFocusFailureCount_fst, focusCalls_count w s h0 k (by omega),
      preIncrement_of_lt w k (by omega)]
    simp only [MAX_FAILURE_ATTEMPTS, decide_eq_true_eq]
    omega
  · rw [increaseFocusFailureCount_fst, focusCalls_count w s h0 5 (by omega),
      preIncrement_of_lt w 5 (by omega)]
    simp [MAX_FAILURE_ATTEMPTS]
  · rw [increaseFocusFailureCount_fst]
    have hz : (resetFailureCounters (focusCalls w 6 s)).m_focusFailureCount = 0 := rfl
    rw [hz]
    have := preIncrement_zero_le w
    simp only [MAX_FAILURE_ATTEMPTS, decide_eq_true_eq]
    omega

/-- Witness of C2: an 8 bit counter type and the fresh module state. -/
theorem focus_failure_five_true_sixth_false_reset_witness :
    (increaseFocusFailureCount 8 (focusCalls 8 0 freshState)).1 = true ∧
      (increaseFocusFailureCount 8 (focusCalls 8 1 freshState)).1 = true ∧
      (increaseFocusFailureCount 8 (focusCalls 8 2 freshState)).1 = true ∧
      (increaseFocusFailureCount 8 (focusCalls 8 3 freshState)).1 = true ∧
      (increaseFocusFailureCount 8 (focusCalls 8 4 freshState)).1 = true ∧
      (increaseFocusFailureCount 8 (focusCalls 8 5 freshState)).1 = false ∧
      (increaseFocusFailureCount 8 (resetFailureCounters (focusCalls 8 6 freshState))).1 = true :=
  have h := focus_failure_five_true_sixth_false_reset 8 freshState (by decide) rfl
  ⟨h.1 0 (by decide), h.1 1 (by decide), h.1 2 (by decide), h.1 3 (by decide),
    h.1 4 (by decide), h.2.1, h.2.2⟩

/-- C3: for every module state, after resetFailureCounters() the Ekos-connect,
INDI-connect, focus, guide, align and capture failure counters are all zero,
and, whatever the width of the counter type, the next call of each of their
increase functions returns true. -/
theorem resetFailureCounters_zeroes_six (s : SchedulerModuleState) (w : Nat) :
    (resetFailureCounters s).m_ekosConnectFailureCount = 0 ∧
      (resetFailureCounters s).m_indiConnectFailureCount = 0 ∧
      (resetFailureCounters s).m_focusFailureCount = 0 ∧
      (resetFailureCounters s).m_guideFailureCount = 0 ∧
      (resetFailureCounters s).m_alignFailureCount = 0 ∧
      (resetFailureCounters s).m_captureFailureCount = 0 ∧
      (increaseEkosConnectFailureCount w (resetFailureCounters s)).1 = true ∧
      (increaseIndiConnectFailureCount w (resetFailureCounters s)).1 = true ∧
      (increaseFocusFailureCount w (resetFailureCounters s)).1 = true ∧
      (increaseGuideFailureCount w (resetFailureCounters s)).1 = true ∧
      (increaseAlignFailureCount w (resetFailureCounters s)).1 = true ∧
      (increaseCaptureFailureCount w (resetFailureCounters s)).1 = true := by
  have h1 := preIncrement_zero_le w
  have key : decide (preIncrement w 0 ≤ MAX_FAILURE_ATTEMPTS) = true := by
    simp only [MAX_FAILURE_ATTEMPTS, decide_eq_true_eq]
    omega
  exact ⟨rfl, rfl, rfl, rfl, rfl, rfl, key, key, key, key, key, key⟩

/-- One call that returned true keeps every counter within the maximum. -/
theorem CounterCall.run_preserves_le_max (w : Nat) (c : CounterCall) (s : SchedulerModuleState)
    (h0 : ∀ X : FailureCounter, X.get s ≤ MAX_FAILURE_ATTEMPTS)
    (hret : (c.run w s).1 = true) :
    ∀ X : FailureCounter, X.get (c.run w s).2 ≤ MAX_FAILURE_ATTEMPTS := by
  intro Y
  cases c with
  | increase X =>
    simp only [CounterCall.run, FailureCounter.increase_eq, decide_eq_true_eq] at hret ⊢
    by_cases hYX : Y = X
    · subst hYX
      rw [FailureCounter.get_put]
      exact hret
    · rw [FailureCounter.get_put_of_ne X Y _ s hYX]
      exact h0 Y
  | resetFailureCounters =>
    simp only [CounterCall.run]
    rw [get_resetFailureCounters]
    split
    · exact h0 Y
    · exact Nat.zero_le _

/-- Counterexample to C4 as stated: six calls of increaseFocusFailureCount()
from the fresh module state (8 bit counters) leave the focus failure counter
at 6, above the threshold 5. -/
theorem focus_counter_exceeds_max_after_six_calls :
    (runCalls 8 (List.replicate 6 (CounterCall.increase FailureCounter.focus))
        freshState).m_focusFailureCount = 6 ∧
      ¬ (FailureCounter.focus.get
          (runCalls 8 (List.replicate 6 (CounterCall.increase FailureCounter.focus))
            freshState) ≤ 5) := by
  decide

/-- C4 (as amended): the counters are not capped, the value returned by
increase<X>FailureCount() reports the threshold.  In every state reached from
a module state whose failure counters are all at most 5 (the initial state in
particular) by a sequence of increase<X>FailureCount() and
resetFailureCounters() calls in which every increase call returned true, every
failure counter is at most 5. -/
theorem counters_le_max_while_increase_returns_true (w : Nat) (calls : List CounterCall)
    (s : SchedulerModuleState) (h0 : ∀ X : FailureCounter, X.get s ≤ 5)
    (hret : allReturnedTrue w calls s = true) :
    ∀ X : FailureCounter, X.get (runCalls w calls s) ≤ 5 := by
  induction calls generalizing s with
  | nil => exact h0
  | cons c cs ih =>
    simp only [allReturnedTrue, Bool.and_eq_true] at hret
    exact ih (c.run w s).2 (CounterCall.run_preserves_le_max w c s h0 hret.1) hret.2

/-- Witness of C4 (as amended): five focus failures, a reset, then a guide
failure and a dome parking failure, from the fresh module state; the focus,
guide and dome parking counters end at 0, 1 and 1. -/
theorem counters_le_max_while_increase_returns_true_witness :
    FailureCounter.focus.get (runCalls 8
        (List.replicate 5 (CounterCall.increase FailureCounter.focus) ++
          [CounterCall.resetFailureCounters, CounterCall.increase FailureCounter.guide,
            CounterCall.increase FailureCounter.parkingDome]) freshState) ≤ 5 ∧
      FailureCounter.guide.get (runCalls 8
        (List.replicate 5 (CounterCall.increase FailureCounter.focus) ++
          [CounterCall.resetFailureCounters, CounterCall.increase FailureCounter.guide,
            CounterCall.increase FailureCounter.parkingDome]) freshState) ≤ 5 ∧
      FailureCounter.parkingDome.get (runCalls 8
        (List.replicate 5 (CounterCall.increase FailureCounter.focus) ++
          [CounterCall.resetFailureCounters, CounterCall.increase FailureCounter.guide,
            CounterCall.increase FailureCounter.parkingDome]) freshState) ≤ 5 :=
  have h := counters_le_max_while_increase_returns_true 8
    (List.replicate 5 (CounterCall.increase FailureCounter.focus) ++
      [CounterCall.resetFailureCounters, CounterCall.increase FailureCounter.guide,
        CounterCall.increase FailureCounter.parkingDome]) freshState
    (by intro X; cases X <;> decide) (by decide)
  ⟨h FailureCounter.focus, h FailureCounter.guide, h FailureCounter.parkingDome⟩

/-! ## Preemptive shutdown -/

/-- Counterexample to C5 as stated: the wake-up time handed to
enablePreemptiveShutdown may be an invalid QDateTime, and then
preemptiveShutdown() is false after the call. -/
theorem enablePreemptiveShutdown_invalid_time_not_pending :
    preemptiveShutdown (enablePreemptiveShutdown freshState QDateTime.null) = false := by
  decide

/-- C5 (as amended): for every module state and every valid wake-up time T,
after enablePreemptiveShutdown(T) the predicate preemptiveShutdown() is true
and preemptiveShutdownWakeupTime() equals T. -/
theorem enablePreemptiveShutdown_valid_time (s : SchedulerModuleState) (T : QDateTime)
    (hT : T.isValid = true) :
    preemptiveShutdown (enablePreemptiveShutdown s T) = true ∧
      preemptiveShutdownWakeupTime (enablePreemptiveShutdown s T) = T :=
  ⟨hT, rfl⟩

/-- Witness of C5 (as amended): a valid wake-up time on the fresh state. -/
theorem enablePreemptiveShutdown_valid_time_witness :
    preemptiveShutdown
        (enablePreemptiveShutdown freshState { isValid := true, msecs := 1700000000000 }) = true ∧
      preemptiveShutdownWakeupTime
        (enablePreemptiveShutdown freshState { isValid := true, msecs := 1700000000000 }) =
        { isValid := true, msecs := 1700000000000 } :=
  enablePreemptiveShutdown_valid_time freshState { isValid := true, msecs := 1700000000000 } rfl

/-- C6: for every module state, whether or not a preemptive shutdown was
enabled before, after disablePreemptiveShutdown() the predicate
preemptiveShutdown() is false and the stored wake-up time is the invalid,
default-constructed time. -/
theorem disablePreemptiveShutdown_clears (s : SchedulerModuleState) :
    preemptiveShutdown (disablePreemptiveShutdown s) = false ∧
      preemptiveShutdownWakeupTime (disablePreemptiveShutdown s) = QDateTime.null ∧
      QDateTime.null.isValid = false :=
  ⟨rfl, rfl, rfl⟩

/-! ## Sub-state setters -/

/-- C7: for each of the five sub-state setters (setStartupState,
setShutdownState, setParkWaitState, setEkosState, setIndiState) and every
value v, after the call the sub-state equals v; if the sub-state already
equalled v, no signal is emitted and the module state is unchanged; otherwise
exactly one change signal, carrying v, is emitted. -/
theorem substate_setters_notify_on_change_only (s : SchedulerModuleState) (v : Nat) :
    ((setStartupState s v).1.m_startupState = v ∧
        (s.m_startupState = v → setStartupState s v = (s, [])) ∧
        (s.m_startupState ≠ v → (setStartupState s v).2 = [Signal.startupStateChanged v])) ∧
      ((setShutdownState s v).1.m_shutdownState = v ∧
        (s.m_shutdownState = v → setShutdownState s v = (s, [])) ∧
        (s.m_shutdownState ≠ v → (setShutdownState s v).2 = [Signal.shutdownStateChanged v])) ∧
      ((setParkWaitState s v).1.m_parkWaitState = v ∧
        (s.m_parkWaitState = v → setParkWaitState s v = (s, [])) ∧
        (s.m_parkWaitState ≠ v → (setParkWaitState s v).2 = [Signal.parkWaitStateChanged v])) ∧
      ((setEkosState s v).1.m_ekosState = v ∧
        (s.m_ekosState = v → setEkosState s v = (s, [])) ∧
        (s.m_ekosState ≠ v → (setEkosState s v).2 = [Signal.ekosStateChanged v])) ∧
      ((setIndiState s v).1.m_indiState = v ∧
        (s.m_indiState = v → setIndiState s v = (s, [])) ∧
        (s.m_indiState ≠ v → (setIndiState s v).2 = [Signal.indiStateChanged v])) := by
  refine ⟨⟨?_, ?_, ?_⟩, ⟨?_, ?_, ?_⟩, ⟨?_, ?_, ?_⟩, ⟨?_, ?_, ?_⟩, ⟨?_, ?_, ?_⟩⟩
  · unfold setStartupState; split
    · rfl
    · next h => exact not_not.mp h
  · intro h; unfold setStartupState; rw [if_neg (not_not.mpr h)]
  · intro h; unfold setStartupState; rw [if_pos h]
  · unfold setShutdownState; split
    · rfl
    · next h => exact not_not.mp h
  · intro h; unfold setShutdownState; rw [if_neg (not_not.mpr h)]
  · intro h; unfold setShutdownState; rw [if_pos h]
  · unfold setParkWaitState; split
    · rfl
    · next h => exact not_not.mp h
  · intro h; unfold setParkWaitState; rw [if_neg (not_not.mpr h)]
  · intro h; unfold setParkWaitState; rw [if_pos h]
  · unfold setEkosState; split
    · rfl
    · next h => exact not_not.mp h
  · intro h; unfold setEkosState; rw [if_neg (not_not.mpr h)]
  · intro h; unfold setEkosState; rw [if_pos h]
  · unfold setIndiState; split
    · rfl
    · next h => exact not_not.mp h
  · intro h; unfold setIndiState; rw [if_neg (not_not.mpr h)]
  · intro h; unfold setIndiState; rw [if_pos h]

/-- C8: the dimensions of the module state are independent.  Putting its old
value back into the one sub-state a setter targets gives back the whole state
it was called on, and putting its old count back into counter X after
increase<X>FailureCount() does the same: no other member changes.  In
particular an increase leaves every other counter, the five sub-states and the
preemptive-shutdown wake time as they were. -/
theorem setters_and_increases_change_own_member_only (s : SchedulerModuleState) (v w : Nat)
    (X : FailureCounter) :
    { (setStartupState s v).1 with m_startupState := s.m_startupState } = s ∧
      { (setShutdownState s v).1 with m_shutdownState := s.m_shutdownState } = s ∧
      { (setParkWaitState s v).1 with m_parkWaitState := s.m_parkWaitState } = s ∧
      { (setEkosState s v).1 with m_ekosState := s.m_ekosState } = s ∧
      { (setIndiState s v).1 with m_indiState := s.m_indiState } = s ∧
      X.put (X.get s) (X.increase w s).2 = s ∧
      (∀ Y : FailureCounter, Y ≠ X → Y.get (X.increase w s).2 = Y.get s) ∧
      (X.increase w s).2.m_startupState = s.m_startupState ∧
      (X.increase w s).2.m_shutdownState = s.m_shutdownState ∧
      (X.increase w s).2.m_parkWaitState = s.m_parkWaitState ∧
      (X.increase w s).2.m_ekosState = s.m_ekosState ∧
      (X.increase w s).2.m_indiState = s.m_indiState ∧
      (X.increase w s).2.m_preemptiveShutdownWakeupTime = s.m_preemptiveShutdownWakeupTime := by
  refine ⟨?_, ?_, ?_, ?_, ?_, ?_, ?_, ?_, ?_, ?_, ?_, ?_, ?_⟩
  · unfold setStartupState; split <;> rfl
  · unfold setShutdownState; split <;> rfl
  · unfold setParkWaitState; split <;> rfl
  · unfold setEkosState; split <;> rfl
  · unfold setIndiState; split <;> rfl
  · rw [FailureCounter.increase_eq, FailureCounter.put_put, FailureCounter.put_get]
  · intro Y hY
    rw [FailureCounter.increase_eq]
    exact FailureCounter.get_put_of_ne X Y _ s hY
  all_goals cases X <;> rfl

/-! ## Iteration timer set-up -/

/-- An int value is its own 32 bit wrap. -/
theorem wrapInt32_of_range (x : Int) (hlo : -2 ^ 31 ≤ x) (hhi : x < 2 ^ 31) :
    wrapInt32 x = x := by
  unfold wrapInt32
  norm_num at hlo hhi ⊢
  omega

/-- C9 (the code at the failing input): a timer started with interval
I = 1000 has r = 900 left (100 elapsed) when setupNextIteration(nextState,
1000) is called.  The code restarts the timer with 1000 - 900 = 100, the
requested delay less the remaining time, and not with the requested delay less
the elapsed time, 1000 - (1000 - 900) = 900, which the claim states.  On a
timer that has just been started (r = 1000, nothing elapsed) the same call
restarts it with 0, so the pass fires at once instead of after the requested
delay. -/
theorem setupNextIteration_subtracts_remaining_not_elapsed :
    iterationTimer (setupNextIteration
        { freshState with
          m_iterationTimer := { isActive := true, interval := 1000, remainingTime := 900 } }
        1 1000) = { isActive := true, interval := 100, remainingTime := 100 } ∧
      ¬ ((iterationTimer (setupNextIteration
        { freshState with
          m_iterationTimer := { isActive := true, interval := 1000, remainingTime := 900 } }
        1 1000)).interval = 1000 - (1000 - 900)) ∧
      iterationTimer (setupNextIteration
        { freshState with
          m_iterationTimer := { isActive := true, interval := 1000, remainingTime := 1000 } }
        1 1000) = { isActive := true, interval := 0, remainingTime := 0 } ∧
      ¬ ((iterationTimer (setupNextIteration
        { freshState with
          m_iterationTimer := { isActive := true, interval := 1000, remainingTime := 1000 } }
        1 1000)).interval = 1000 - (1000 - 1000)) := by
  decide

/-- What the code computes on a running timer when the int subtraction does
not overflow: with remaining time r the timer is stopped and restarted with
max(0, ms - r); that value is also timerInterval() afterwards, timerState() is
nextState and iterationSetup() is true. -/
theorem setupNextIteration_running_timer (s : SchedulerModuleState)
    (nextState : SchedulerTimerState) (ms : Int)
    (hact : (iterationTimer s).isActive = true)
    (hlo : -2 ^ 31 ≤ ms - (iterationTimer s).remainingTime)
    (hhi : ms - (iterationTimer s).remainingTime < 2 ^ 31) :
    iterationTimer (setupNextIteration s nextState ms) =
        { isActive := true
          interval := max 0 (ms - (iterationTimer s).remainingTime)
          remainingTime := max 0 (ms - (iterationTimer s).remainingTime) } ∧
      timerInterval (setupNextIteration s nextState ms) =
        max 0 (ms - (iterationTimer s).remainingTime) ∧
      timerState (setupNextIteration s nextState ms) = nextState ∧
      iterationSetup (setupNextIteration s nextState ms) = true := by
  have hact1 : (iterationTimer (setTimerState s nextState)).isActive = true := hact
  have hrem : (iterationTimer (setTimerState s nextState)).remainingTime =
      (iterationTimer s).remainingTime := rfl
  unfold setupNextIteration
  simp only [hact1, hrem, if_true, wrapInt32_of_range _ hlo hhi]
  exact ⟨rfl, rfl, rfl, rfl⟩

/-- C10: for every nextState and delay ms, when the iteration timer is not
running, setupNextIteration(nextState, ms) leaves timerState() = nextState,
timerInterval() = ms and iterationSetup() = true, and the timer is untouched
and still not running; the one-argument overload is
setupNextIteration(nextState, m_UpdatePeriodMs). -/
theorem setupNextIteration_idle_timer (s : SchedulerModuleState)
    (nextState : SchedulerTimerState) (ms : Int)
    (hidle : (iterationTimer s).isActive = false) :
    timerState (setupNextIteration s nextState ms) = nextState ∧
      timerInterval (setupNextIteration s nextState ms) = ms ∧
      iterationSetup (setupNextIteration s nextState ms) = true ∧
      iterationTimer (setupNextIteration s nextState ms) = iterationTimer s ∧
      (iterationTimer (setupNextIteration s nextState ms)).isActive = false ∧
      setupNextIterationDefault s nextState = setupNextIteration s nextState s.m_UpdatePeriodMs := by
  have hidle1 : (iterationTimer (setTimerState s nextState)).isActive = false := hidle
  have key : setupNextIteration s nextState ms =
      setIterationSetup (setTimerInterval (setTimerState s nextState) ms) true := by
    unfold setupNextIteration
    simp only [hidle1, Bool.false_eq_true, if_false]
  rw [key]
  exact ⟨rfl, rfl, rfl, rfl, hidle, rfl⟩

/-- Witness of C10: the fresh module state, whose timer is stopped, with
nextState 2 and a delay of 500 ms. -/
theorem setupNextIteration_idle_timer_witness :
    timerState (setupNextIteration freshState 2 500) = 2 ∧
      timerInterval (setupNextIteration freshState 2 500) = 500 ∧
      iterationSetup (setupNextIteration freshState 2 500) = true ∧
      iterationTimer (setupNextIteration freshState 2 500) = iterationTimer freshState ∧
      (iterationTimer (setupNextIteration freshState 2 500)).isActive = false ∧
      setupNextIterationDefault freshState 2 =
        setupNextIteration freshState 2 freshState.m_UpdatePeriodMs :=
  setupNextIteration_idle_timer freshState 2 500 rfl

/-! ## Profiles -/

/-- What updateProfiles computes, in closed form: it always has a result, the
list becomes the sentinel followed by the new profiles, the selection is kept
if it is in that list and becomes the sentinel otherwise, and the only signal
is profilesChanged. -/
theorem updateProfiles_eq (i18n : String → String) (s : SchedulerModuleState)
    (newProfiles : List String) :
    updateProfiles i18n s newProfiles =
      some ({ s with
              m_profiles := i18n "Default" :: newProfiles
              m_currentProfile :=
                if s.m_currentProfile ∈ i18n "Default" :: newProfiles then s.m_currentProfile
                else i18n "Default" },
            [Signal.profilesChanged]) := by
  unfold updateProfiles setCurrentProfile currentProfile
  by_cases h : s.m_currentProfile ∈ i18n "Default" :: newProfiles
  · simp [h]
  · simp [h]

/-- C11: for every list newProfiles, updateProfiles(newProfiles) has a result
and afterwards the profile list is exactly the sentinel i18n("Default")
followed by newProfiles in their given order, so the list is non-empty and its
first element is the sentinel; the sentinel is the string "Default" itself
when i18n leaves it untranslated. -/
theorem updateProfiles_default_first (i18n : String → String) (s : SchedulerModuleState)
    (newProfiles : List String) :
    ∃ r, updateProfiles i18n s newProfiles = some r ∧
      r.1.m_profiles = i18n "Default" :: newProfiles ∧
      r.1.m_profiles ≠ [] ∧
      r.1.m_profiles.head? = some (i18n "Default") ∧
      (i18n "Default" = "Default" → r.1.m_profiles = "Default" :: newProfiles) := by
  refine ⟨_, updateProfiles_eq i18n s newProfiles, rfl, ?_, rfl, ?_⟩
  · exact List.cons_ne_nil _ _
  · intro h
    show i18n "Default" :: newProfiles = "Default" :: newProfiles
    rw [h]

/-- C12: for every previous current profile p and every list newProfiles,
updateProfiles(newProfiles) has a result and afterwards the current profile is
a member of the new profile list; it is p when p is the sentinel
i18n("Default") or occurs in newProfiles, and the sentinel otherwise. -/
theorem updateProfiles_selection_exists (i18n : String → String) (s : SchedulerModuleState)
    (newProfiles : List String) :
    ∃ r, updateProfiles i18n s newProfiles = some r ∧
      r.1.m_currentProfile ∈ r.1.m_profiles ∧
      (s.m_currentProfile = i18n "Default" ∨ s.m_currentProfile ∈ newProfiles →
        r.1.m_currentProfile = s.m_currentProfile) ∧
      (¬ (s.m_currentProfile = i18n "Default" ∨ s.m_currentProfile ∈ newProfiles) →
        r.1.m_currentProfile = i18n "Default") := by
  refine ⟨_, updateProfiles_eq i18n s newProfiles, ?_, ?_, ?_⟩
  · show (if s.m_currentProfile ∈ i18n "Default" :: newProfiles then s.m_currentProfile
        else i18n "Default") ∈ i18n "Default" :: newProfiles
    split
    · assumption
    · exact List.mem_cons_self _ _
  · intro h
    show (if s.m_currentProfile ∈ i18n "Default" :: newProfiles then s.m_currentProfile
        else i18n "Default") = s.m_currentProfile
    rw [if_pos (List.mem_cons.mpr h)]
  · intro h
    show (if s.m_currentProfile ∈ i18n "Default" :: newProfiles then s.m_currentProfile
        else i18n "Default") = i18n "Default"
    rw [if_neg (fun hm => h (List.mem_cons.mp hm))]

/-! # Scheduler job -/

/-- C13: for all jobs a and b (given by their addresses), a.isDuplicateOf(b) is
true if and only if a and b are different objects whose names are equal and
whose sequence files are equal; no job is a duplicate of itself, and the
relation is symmetric. -/
theorem isDuplicateOf_iff (jobs : Nat → SchedulerJob) (a b : Nat) :
    (isDuplicateOf jobs a b = true ↔
        a ≠ b ∧ (jobs a).name = (jobs b).name ∧
          (jobs a).sequenceFile = (jobs b).sequenceFile) ∧
      isDuplicateOf jobs a a = false ∧
      isDuplicateOf jobs a b = isDuplicateOf jobs b a := by
  refine ⟨?_, ?_, ?_⟩
  · simp [isDuplicateOf, and_assoc]
  · simp [isDuplicateOf]
  · rw [Bool.eq_iff_iff]
    simp only [isDuplicateOf, Bool.and_eq_true, decide_eq_true_eq]
    constructor
    · rintro ⟨⟨h1, h2⟩, h3⟩
      exact ⟨⟨fun h => h1 h.symm, h2.symm⟩, h3.symm⟩
    · rintro ⟨⟨h1, h2⟩, h3⟩
      exact ⟨⟨fun h => h1 h.symm, h2.symm⟩, h3.symm⟩

/-- C14: hasMinAltitude() is true if and only if minAltitude > -90
(UNDEFINED_ALTITUDE) as doubles compare; for a finite min-altitude q that is
-90 < q, a NaN is not above -90; so a min-altitude of 0 counts as defined and is
not confused with the sentinel, a job whose min-altitude is at least -90 has it
undefined exactly when it equals -90, and a freshly constructed job, whose
minAltitude is initialised to UNDEFINED_ALTITUDE, has hasMinAltitude() false. -/
theorem hasMinAltitude_iff (j : SchedulerJob) :
    (j.hasMinAltitude = true ↔ Double.lt (Double.finite (-90)) j.minAltitude = true) ∧
      (∀ q : ℚ, j.minAltitude = Double.finite q → (j.hasMinAltitude = true ↔ -90 < q)) ∧
      (j.minAltitude = Double.nan → j.hasMinAltitude = false) ∧
      (j.minAltitude = Double.finite 0 → j.hasMinAltitude = true) ∧
      (∀ q : ℚ, j.minAltitude = Double.finite q → -90 ≤ q →
        (j.hasMinAltitude = false ↔ q = -90)) ∧
      freshJob.minAltitude = Double.ofInt UNDEFINED_ALTITUDE ∧
      freshJob.hasMinAltitude = false := by
  refine ⟨?_, ?_, ?_, ?_, ?_, rfl, ?_⟩
  · simp [SchedulerJob.hasMinAltitude, Double.ofInt, UNDEFINED_ALTITUDE]
  · intro q hq
    simp [SchedulerJob.hasMinAltitude, Double.ofInt, UNDEFINED_ALTITUDE, hq, Double.lt]
  · intro hq
    simp [SchedulerJob.hasMinAltitude, Double.ofInt, UNDEFINED_ALTITUDE, hq, Double.lt]
  · intro hq
    simp [SchedulerJob.hasMinAltitude, Double.ofInt, UNDEFINED_ALTITUDE, hq, Double.lt]
  · intro q hq hge
    simp only [SchedulerJob.hasMinAltitude, Double.ofInt, UNDEFINED_ALTITUDE, hq, Double.lt,
      decide_eq_false_iff_not, not_lt]
    push_cast
    constructor
    · intro hle
      exact le_antisymm hle hge
    · intro he
      exact le_of_eq he
  · simp [SchedulerJob.hasMinAltitude, freshJob, Double.ofInt, UNDEFINED_ALTITUDE, Double.lt]

/-- C15: for every job whose min-altitude is undefined (hasMinAltitude() is
false) and every azimuth and altitude, neither satisfiesAltitudeConstraint nor
satisfiesConstraints fails on min-altitude grounds; without artificial-horizon
enforcement the altitude check passes whatever the altitude. -/
theorem undefined_min_altitude_never_fails (ctx : AstronomicalContext) (j : SchedulerJob)
    (azimuth altitude : Double) (hundef : j.hasMinAltitude = false) :
    (satisfiesAltitudeConstraint ctx j azimuth altitude).2 ≠ some ConstraintFailure.minAltitude ∧
      (satisfiesConstraints ctx j azimuth altitude).2 ≠ some ConstraintFailure.minAltitude ∧
      (j.enforceArtificialHorizon = false →
        satisfiesAltitudeConstraint ctx j azimuth altitude = (true, none)) := by
  have halt : satisfiesAltitudeConstraint ctx j azimuth altitude =
      if j.enforceArtificialHorizon && ctx.isBelowHorizon azimuth altitude then
        (false, some ConstraintFailure.artificialHorizon)
      else (true, none) := by
    simp [satisfiesAltitudeConstraint, hundef]
  refine ⟨?_, ?_, ?_⟩
  · rw [halt]
    split <;> simp
  · unfold satisfiesConstraints
    rw [halt]
    by_cases hb : (j.enforceArtificialHorizon && ctx.isBelowHorizon azimuth altitude) = true
    · rw [if_pos hb]
      simp
    · rw [if_neg hb]
      dsimp only
      split
      · simp
      · split <;> simp
  · intro hno
    rw [halt]
    simp [hno]

/-- Witness of C15: the freshly constructed job, whose min-altitude is
undefined, at an altitude of -95 degrees, below the sentinel itself. -/
theorem undefined_min_altitude_never_fails_witness :
    (satisfiesAltitudeConstraint
        { isBelowHorizon := fun _ _ => false, moonSeparation := Double.finite 30,
          inAstronomicalNight := true }
        freshJob (Double.finite 180) (Double.finite (-95))).2 ≠
      some ConstraintFailure.minAltitude :=
  (undefined_min_altitude_never_fails
    { isBelowHorizon := fun _ _ => false, moonSeparation := Double.finite 30,
      inAstronomicalNight := true }
    freshJob (Double.finite 180) (Double.finite (-95))
    (by simp [SchedulerJob.hasMinAltitude, freshJob, Double.ofInt, UNDEFINED_ALTITUDE,
      Double.lt])).1

/-! ## Time search -/

/-- The stepping loop returns the invalid date-time or one of the instants it
tried, t + k * step with k below the number of steps, where the constraint
predicate has the wanted value. -/
theorem calculateNextTimeLoop_result (constraintsMet : Int → Bool) (flag : Bool) (step : Int)
    (n : Nat) (t : Int) :
    calculateNextTimeLoop constraintsMet flag step n t = QDateTime.null ∨
      ∃ k : Nat, k < n ∧
        calculateNextTimeLoop constraintsMet flag step n t =
          { isValid := true, msecs := t + k * step } ∧
        constraintsMet (t + k * step) = flag := by
  induction n generalizing t with
  | zero => exact Or.inl rfl
  | succ m ih =>
    unfold calculateNextTimeLoop
    by_cases h : constraintsMet t = flag
    · rw [if_pos h]
      exact Or.inr ⟨0, Nat.succ_pos m, by simp, by simpa using h⟩
    · rw [if_neg h]
      rcases ih (t + step) with hnull | ⟨k, hk, hres, hmet⟩
      · exact Or.inl hnull
      · refine Or.inr ⟨k + 1, Nat.succ_lt_succ hk, ?_, ?_⟩
        · rw [hres]
          congr 1
          push_cast
          ring
        · rw [← hmet]
          congr 1
          push_cast
          ring

/-- A step counted by stepsBefore starts before the limit. -/
theorem lt_of_lt_stepsBefore (when until_ step : Int) (hstep : 0 < step) (k : Nat)
    (hk : k < stepsBefore when until_ step) : when + k * step < until_ := by
  unfold stepsBefore at hk
  have h1 : (k : Int) < (until_ - when + step - 1) / step := Int.lt_toNat.mp hk
  have h2 : (until_ - when + step - 1) / step * step ≤ until_ - when + step - 1 :=
    Int.ediv_mul_le _ (ne_of_gt hstep)
  have h3 : ((k : Int) + 1) * step ≤ (until_ - when + step - 1) / step * step :=
    Int.mul_le_mul_of_nonneg_right (by omega) (le_of_lt hstep)
  have h4 : ((k : Int) + 1) * step = k * step + step := by ring
  omega

/-- C16: for every constraint predicate of a job, every pair of instants
from_ and until_ (from_ < until_ in particular) and every positive increment,
calculateNextTime(from_, checkIfConstraintsAreMet, increment, until_) returns
either the invalid date-time or a valid time t with from_ <= t <= until_ (and
in fact t < until_) at which the constraint predicate has the value searched
for; this holds for checkIfConstraintsAreMet = true in particular. -/
theorem calculateNextTime_in_window (constraintsMet : Int → Bool) (from_ until_ : Int)
    (checkIfConstraintsAreMet : Bool) (increment : Int) (hinc : 0 < increment) :
    calculateNextTime constraintsMet from_ checkIfConstraintsAreMet increment until_ =
        QDateTime.null ∨
      ((calculateNextTime constraintsMet from_ checkIfConstraintsAreMet increment
            until_).isValid = true ∧
        from_ ≤ (calculateNextTime constraintsMet from_ checkIfConstraintsAreMet increment
            until_).msecs ∧
        (calculateNextTime constraintsMet from_ checkIfConstraintsAreMet increment
            until_).msecs ≤ until_ ∧
        (calculateNextTime constraintsMet from_ checkIfConstraintsAreMet increment
            until_).msecs < until_ ∧
        constraintsMet (calculateNextTime constraintsMet from_ checkIfConstraintsAreMet
            increment until_).msecs = checkIfConstraintsAreMet) := by
  have hstep : (0 : Int) < increment * 60000 := by omega
  unfold calculateNextTime
  rcases calculateNextTimeLoop_result constraintsMet checkIfConstraintsAreMet
      (increment * 60000) (stepsBefore from_ until_ (increment * 60000)) from_ with
    hnull | ⟨k, hk, hres, hmet⟩
  · exact Or.inl hnull
  · right
    rw [hres]
    have hlt := lt_of_lt_stepsBefore from_ until_ (increment * 60000) hstep k hk
    have hnn : (0 : Int) ≤ k * (increment * 60000) :=
      Int.mul_nonneg (Int.ofNat_nonneg k) (le_of_lt hstep)
    refine ⟨rfl, ?_, ?_, ?_, hmet⟩
    · show from_ ≤ from_ + k * (increment * 60000)
      omega
    · show from_ + k * (increment * 60000) ≤ until_
      omega
    · exact hlt

/-- Witness of C16: constraints are met from minute 3 on; the search from
instant 0 with a limit of 10 minutes and steps of one minute returns minute 3,
inside the window. -/
theorem calculateNextTime_in_window_witness :
    (calculateNextTime (fun t => decide (180000 ≤ t)) 0 true 1 600000 = QDateTime.null ∨
      ((calculateNextTime (fun t => decide (180000 ≤ t)) 0 true 1 600000).isValid = true ∧
        0 ≤ (calculateNextTime (fun t => decide (180000 ≤ t)) 0 true 1 600000).msecs ∧
        (calculateNextTime (fun t => decide (180000 ≤ t)) 0 true 1 600000).msecs ≤ 600000 ∧
        (calculateNextTime (fun t => decide (180000 ≤ t)) 0 true 1 600000).msecs < 600000 ∧
        (fun t => decide (180000 ≤ t))
          (calculateNextTime (fun t => decide (180000 ≤ t)) 0 true 1 600000).msecs = true)) ∧
      calculateNextTime (fun t => decide (180000 ≤ t)) 0 true 1 600000 =
        { isValid := true, msecs := 180000 } :=
  ⟨calculateNextTime_in_window (fun t => decide (180000 ≤ t)) 0 600000 true 1 (by decide),
    by decide⟩

/-! ## Start-time cache -/

/-- C17: for every content of the start-time cache and every query
(from_, until_), check reports a hit if and only if some stored entry
(f, u, r) contains the query interval (f <= from_ and u >= until_); on a hit
the returned result is the result r of such a stored entry; after clear(), and
so after clearCache() of a job, every check misses. -/
theorem startTimeCache_check_hit_iff (cache : StartTimeCache) (j : SchedulerJob)
    (from_ until_ : QDateTime) :
    ((cache.check from_ until_).1 = true ↔
        ∃ c ∈ cache.startComputations,
          c.from_.msecs ≤ from_.msecs ∧ until_.msecs ≤ c.until_.msecs) ∧
      ((cache.check from_ until_).1 = true →
        ∃ c ∈ cache.startComputations,
          (c.from_.msecs ≤ from_.msecs ∧ until_.msecs ≤ c.until_.msecs) ∧
            (cache.check from_ until_).2.1 = c.result) ∧
      (cache.clear.check from_ until_).1 = false ∧
      (j.clearCache.startTimeCache.check from_ until_).1 = false := by
  have hcov : ∀ c : StartTimeComputation, c.covers from_ until_ = true ↔
      (c.from_.msecs ≤ from_.msecs ∧ until_.msecs ≤ c.until_.msecs) := by
    intro c
    simp [StartTimeComputation.covers, QDateTime.le]
  refine ⟨?_, ?_, rfl, rfl⟩
  · unfold StartTimeCache.check
    cases hf : cache.startComputations.find? (fun c => c.covers from_ until_) with
    | none =>
      simp only [Bool.false_eq_true, false_iff]
      rintro ⟨c, hc, hcover⟩
      have hnone := List.find?_eq_none.mp hf c hc
      exact hnone ((hcov c).mpr hcover)
    | some c =>
      simp only [true_iff]
      have hc : c.covers from_ until_ = true :=
        @List.find?_some _ (fun x => x.covers from_ until_) c _ hf
      exact ⟨c, List.mem_of_find?_eq_some hf, (hcov c).mp hc⟩
  · unfold StartTimeCache.check
    cases hf : cache.startComputations.find? (fun c => c.covers from_ until_) with
    | none => simp
    | some c =>
      intro _
      have hc : c.covers from_ until_ = true :=
        @List.find?_some _ (fun x => x.covers from_ until_) c _ hf
      exact ⟨c, List.mem_of_find?_eq_some hf, (hcov c).mp hc, rfl⟩

/-! ## Ordering, reset and state -/

/-- C18: for all jobs a and b evaluated at the same time (when, or the startup
time of a if when is omitted), decreasingAltitudeOrder(a, b, when) returns true
if a is setting and b is not, false if b is setting and a is not, and
otherwise returns true exactly when the altitude of b is lower than the
altitude of a; hence a setting job at 40 degrees sorts before a rising job at
60 degrees. -/
theorem decreasingAltitudeOrder_cases (findAltitude : SkyPoint → QDateTime → Double × Bool)
    (a b : SchedulerJob) (when : QDateTime) :
    ((findAltitude a.targetCoords (if when.isValid then when else a.startupTime)).2 = true →
        (findAltitude b.targetCoords (if when.isValid then when else a.startupTime)).2 = false →
        decreasingAltitudeOrder findAltitude a b when = true) ∧
      ((findAltitude a.targetCoords (if when.isValid then when else a.startupTime)).2 = false →
        (findAltitude b.targetCoords (if when.isValid then when else a.startupTime)).2 = true →
        decreasingAltitudeOrder findAltitude a b when = false) ∧
      ((findAltitude a.targetCoords (if when.isValid then when else a.startupTime)).2 =
          (findAltitude b.targetCoords (if when.isValid then when else a.startupTime)).2 →
        decreasingAltitudeOrder findAltitude a b when =
          Double.lt
            (findAltitude b.targetCoords (if when.isValid then when else a.startupTime)).1
            (findAltitude a.targetCoords (if when.isValid then when else a.startupTime)).1) ∧
      (findAltitude a.targetCoords (if when.isValid then when else a.startupTime) =
          (Double.finite 40, true) →
        findAltitude b.targetCoords (if when.isValid then when else a.startupTime) =
          (Double.finite 60, false) →
        decreasingAltitudeOrder findAltitude a b when = true) := by
  refine ⟨?_, ?_, ?_, ?_⟩
  · intro ha hb
    simp [decreasingAltitudeOrder, ha, hb]
  · intro ha hb
    simp [decreasingAltitudeOrder, ha, hb]
  · intro hab
    unfold decreasingAltitudeOrder
    simp only [hab]
    cases (findAltitude b.targetCoords (if when.isValid then when else a.startupTime)).2 <;>
      simp
  · intro ha hb
    simp [decreasingAltitudeOrder, ha, hb]

/-- C19: reset() is idempotent and restores the originals: for every job j,
reset(reset(j)) equals reset(j), and after reset() the job has state JOB_IDLE,
stage STAGE_IDLE, startup condition equal to the file startup condition, an
unestimated duration (-1) and repeatsRemaining equal to repeatsRequired. -/
theorem reset_idempotent (j : SchedulerJob) :
    j.reset.reset = j.reset ∧
      j.reset.state = JOBStatus.JOB_IDLE ∧
      j.reset.stage = JOBStage.STAGE_IDLE ∧
      j.reset.startupCondition = j.reset.fileStartupCondition ∧
      j.reset.fileStartupCondition = j.fileStartupCondition ∧
      j.reset.estimatedTime = -1 ∧
      j.reset.repeatsRemaining = j.reset.repeatsRequired ∧
      j.reset.repeatsRequired = j.repeatsRequired :=
  ⟨rfl, rfl, rfl, rfl, rfl, rfl, rfl, rfl⟩

/-- C20: for every job, after setState(JOB_ABORTED) and after
setState(JOB_INVALID) the effective startup condition equals the file-authored
startup condition and the effective startup time equals the file-authored
startup time, whatever startup time had been computed before; the
file-authored values themselves are not changed. -/
theorem setState_aborted_invalid_restores_startup (j : SchedulerJob) :
    (j.setState JOBStatus.JOB_ABORTED).startupCondition = j.fileStartupCondition ∧
      (j.setState JOBStatus.JOB_ABORTED).startupTime = j.fileStartupTime ∧
      (j.setState JOBStatus.JOB_ABORTED).fileStartupCondition = j.fileStartupCondition ∧
      (j.setState JOBStatus.JOB_ABORTED).fileStartupTime = j.fileStartupTime ∧
      (j.setState JOBStatus.JOB_ABORTED).state = JOBStatus.JOB_ABORTED ∧
      (j.setState JOBStatus.JOB_INVALID).startupCondition = j.fileStartupCondition ∧
      (j.setState JOBStatus.JOB_INVALID).startupTime = j.fileStartupTime ∧
      (j.setState JOBStatus.JOB_INVALID).fileStartupCondition = j.fileStartupCondition ∧
      (j.setState JOBStatus.JOB_INVALID).fileStartupTime = j.fileStartupTime ∧
      (j.setState JOBStatus.JOB_INVALID).state = JOBStatus.JOB_INVALID :=
  ⟨rfl, rfl, rfl, rfl, rfl, rfl, rfl, rfl, rfl, rfl⟩

/-! # Module state, continued -/

/-- From a zeroed counter, n consecutive calls of its increase function leave
it at n modulo the number of values of the counter type. -/
theorem FailureCounter.get_increaseCalls (X : FailureCounter) (w : Nat)
    (s : SchedulerModuleState) (h0 : X.get s = 0) (n : Nat) :
    X.get (X.increaseCalls w n s) = n % 2 ^ w := by
  induction n with
  | zero => simpa [FailureCounter.increaseCalls] using h0
  | succ m ih =>
    show X.get (X.increase w (X.increaseCalls w m s)).2 = (m + 1) % 2 ^ w
    rw [FailureCounter.increase_eq, FailureCounter.get_put, ih]
    unfold preIncrement
    exact Nat.mod_add_mod m (2 ^ w) 1

/-- The value returned by call number n + 1 of a run of consecutive calls that
started with the counter at zero. -/
theorem FailureCounter.increase_after_calls (X : FailureCounter) (w : Nat)
    (s : SchedulerModuleState) (h0 : X.get s = 0) (n : Nat) :
    (X.increase w (X.increaseCalls w n s)).1 = decide ((n + 1) % 2 ^ w ≤ 5) := by
  rw [FailureCounter.increase_eq, FailureCounter.get_increaseCalls X w s h0 n]
  show decide (preIncrement w (n % 2 ^ w) ≤ MAX_FAILURE_ATTEMPTS) = decide ((n + 1) % 2 ^ w ≤ 5)
  unfold preIncrement MAX_FAILURE_ATTEMPTS
  rw [Nat.mod_add_mod n (2 ^ w) 1]

/-- Counterexample to C23 as stated: with an 8 bit counter type and the focus
counter at zero, the call number n = 256 of a run of consecutive
increaseFocusFailureCount() calls returns true although 256 <= 5 is false, and
it does so after call number 6 has returned false. -/
theorem focus_failure_call_256_returns_true :
    FailureCounter.focus.get freshState = 0 ∧
      (FailureCounter.focus.increase 8
        (FailureCounter.focus.increaseCalls 8 5 freshState)).1 = false ∧
      (FailureCounter.focus.increase 8
        (FailureCounter.focus.increaseCalls 8 255 freshState)).1 = true ∧
      ¬ ((FailureCounter.focus.increase 8
          (FailureCounter.focus.increaseCalls 8 255 freshState)).1 = true ↔ 256 ≤ 5) := by
  have h6 := FailureCounter.increase_after_calls FailureCounter.focus 8 freshState rfl 5
  have h256 := FailureCounter.increase_after_calls FailureCounter.focus 8 freshState rfl 255
  refine ⟨rfl, ?_, ?_, ?_⟩
  · rw [h6]
    decide
  · rw [h256]
    decide
  · rw [h256]
    decide

/-- C23 (as amended): starting from a zeroed counter X and with no intervening
reset, for every n >= 1 the n-th consecutive call of increase<X>FailureCount()
returns true if and only if n modulo 2^w is at most 5, w being the width of the
counter type; so for every n below 2^w it returns true if and only if n <= 5,
and once a call has returned false every later call before the 2^w-th also
returns false. -/
theorem failure_escalation_sticky_below_wrap (X : FailureCounter) (w : Nat)
    (s : SchedulerModuleState) (n : Nat) (h0 : X.get s = 0) (hn : 1 ≤ n) :
    ((X.increase w (X.increaseCalls w (n - 1) s)).1 = true ↔ n % 2 ^ w ≤ 5) ∧
      (n < 2 ^ w → ((X.increase w (X.increaseCalls w (n - 1) s)).1 = true ↔ n ≤ 5)) ∧
      (∀ m : Nat, n ≤ m → m < 2 ^ w →
        (X.increase w (X.increaseCalls w (n - 1) s)).1 = false →
        (X.increase w (X.increaseCalls w (m - 1) s)).1 = false) := by
  have hcall : ∀ k : Nat, 1 ≤ k →
      (X.increase w (X.increaseCalls w (k - 1) s)).1 = decide (k % 2 ^ w ≤ 5) := by
    intro k hk
    have h := FailureCounter.increase_after_calls X w s h0 (k - 1)
    rwa [Nat.sub_add_cancel hk] at h
  refine ⟨?_, ?_, ?_⟩
  · rw [hcall n hn]
    exact decide_eq_true_iff
  · intro hlt
    rw [hcall n hn, Nat.mod_eq_of_lt hlt]
    exact decide_eq_true_iff
  · intro m hnm hm hfalse
    have hnlt : n < 2 ^ w := lt_of_le_of_lt hnm hm
    rw [hcall n hn, Nat.mod_eq_of_lt hnlt, decide_eq_false_iff_not] at hfalse
    rw [hcall m (le_trans hn hnm), Nat.mod_eq_of_lt hm, decide_eq_false_iff_not]
    omega

/-- Witness of C23 (as amended): the guide counter of an 8 bit counter type;
the 5th call returns true and the 6th returns false. -/
theorem failure_escalation_sticky_below_wrap_witness :
    ((FailureCounter.guide.increase 8
        (FailureCounter.guide.increaseCalls 8 (5 - 1) freshState)).1 = true ↔ 5 ≤ 5) ∧
      ((FailureCounter.guide.increase 8
        (FailureCounter.guide.increaseCalls 8 (6 - 1) freshState)).1 = true ↔ 6 ≤ 5) :=
  ⟨(failure_escalation_sticky_below_wrap FailureCounter.guide 8 freshState 5 rfl
      (by decide)).2.1 (by decide),
    (failure_escalation_sticky_below_wrap FailureCounter.guide 8 freshState 6 rfl
      (by decide)).2.1 (by decide)⟩

/-- Counterexample to C24 as stated: with an 8 bit counter type and the dome
parking counter at 255, which exceeds 5, the call of
increaseParkingDomeFailureCount() that follows resetFailureCounters() returns
true: the reset left the counter at 255 and the increment wraps to 0. -/
theorem parking_counter_at_type_max_returns_true_after_reset :
    (FailureCounter.parkingDome.put 255 freshState).m_parkingDomeFailureCount = 255 ∧
      (resetFailureCounters
        (FailureCounter.parkingDome.put 255 freshState)).m_parkingDomeFailureCount = 255 ∧
      (increaseParkingDomeFailureCount 8
        (resetFailureCounters (FailureCounter.parkingDome.put 255 freshState))).1 = true := by
  refine ⟨rfl, rfl, ?_⟩
  show decide (preIncrement 8 255 ≤ MAX_FAILURE_ATTEMPTS) = true
  decide

/-- C24 (as amended): resetFailureCounters() leaves the three parking failure
counters (dust cap, mount, dome) unchanged, so the next call of each
increaseParking<X>FailureCount() returns what it would have returned without
the reset; if the parking counter has exceeded 5 and is below the largest
value of the counter type, that call still returns false. -/
theorem resetFailureCounters_keeps_parking_counters (s : SchedulerModuleState) (w : Nat) :
    ((resetFailureCounters s).m_parkingCapFailureCount = s.m_parkingCapFailureCount ∧
        (resetFailureCounters s).m_parkingMountFailureCount = s.m_parkingMountFailureCount ∧
        (resetFailureCounters s).m_parkingDomeFailureCount = s.m_parkingDomeFailureCount) ∧
      ((increaseParkingCapFailureCount w (resetFailureCounters s)).1 =
          (increaseParkingCapFailureCount w s).1 ∧
        (increaseParkingMountFailureCount w (resetFailureCounters s)).1 =
          (increaseParkingMountFailureCount w s).1 ∧
        (increaseParkingDomeFailureCount w (resetFailureCounters s)).1 =
          (increaseParkingDomeFailureCount w s).1) ∧
      ((5 < s.m_parkingCapFailureCount → s.m_parkingCapFailureCount + 1 < 2 ^ w →
          (increaseParkingCapFailureCount w (resetFailureCounters s)).1 = false) ∧
        (5 < s.m_parkingMountFailureCount → s.m_parkingMountFailureCount + 1 < 2 ^ w →
          (increaseParkingMountFailureCount w (resetFailureCounters s)).1 = false) ∧
        (5 < s.m_parkingDomeFailureCount → s.m_parkingDomeFailureCount + 1 < 2 ^ w →
          (increaseParkingDomeFailureCount w (resetFailureCounters s)).1 = false)) := by
  have hcap : (resetFailureCounters s).m_parkingCapFailureCount =
      s.m_parkingCapFailureCount := by
    simp [resetFailureCounters, resetCaptureFailureCount, resetAlignFailureCount,
      resetGuideFailureCount, resetFocusFailureCount, resetEkosConnectFailureCount,
      resetIndiConnectFailureCount]
  have hmount : (resetFailureCounters s).m_parkingMountFailureCount =
      s.m_parkingMountFailureCount := by
    simp [resetFailureCounters, resetCaptureFailureCount, resetAlignFailureCount,
      resetGuideFailureCount, resetFocusFailureCount, resetEkosConnectFailureCount,
      resetIndiConnectFailureCount]
  have hdome : (resetFailureCounters s).m_parkingDomeFailureCount =
      s.m_parkingDomeFailureCount := by
    simp [resetFailureCounters, resetCaptureFailureCount, resetAlignFailureCount,
      resetGuideFailureCount, resetFocusFailureCount, resetEkosConnectFailureCount,
      resetIndiConnectFailureCount]
  have key : ∀ c : Nat, 5 < c → c + 1 < 2 ^ w →
      decide (preIncrement w c ≤ MAX_FAILURE_ATTEMPTS) = false := by
    intro c hc hlt
    rw [preIncrement_of_lt w c hlt, decide_eq_false_iff_not]
    unfold MAX_FAILURE_ATTEMPTS
    omega
  have ecap : (increaseParkingCapFailureCount w (resetFailureCounters s)).1 =
      (increaseParkingCapFailureCount w s).1 := by
    unfold increaseParkingCapFailureCount
    simp only [hcap]
  have emount : (increaseParkingMountFailureCount w (resetFailureCounters s)).1 =
      (increaseParkingMountFailureCount w s).1 := by
    unfold increaseParkingMountFailureCount
    simp only [hmount]
  have edome : (increaseParkingDomeFailureCount w (resetFailureCounters s)).1 =
      (increaseParkingDomeFailureCount w s).1 := by
    unfold increaseParkingDomeFailureCount
    simp only [hdome]
  refine ⟨⟨hcap, hmount, hdome⟩, ⟨ecap, emount, edome⟩, ⟨?_, ?_, ?_⟩⟩
  · intro hc hlt
    rw [ecap]
    exact key s.m_parkingCapFailureCount hc hlt
  · intro hc hlt
    rw [emount]
    exact key s.m_parkingMountFailureCount hc hlt
  · intro hc hlt
    rw [edome]
    exact key s.m_parkingDomeFailureCount hc hlt

/-- C25: for every non-empty profile list, every previous current profile and
every newName, setCurrentProfile(newName, signal) has a result; it sets the
current profile to newName if the list contains it and to the first list entry
otherwise, changes no other member, and emits currentProfileChanged, once, if
and only if signal is true and the current profile after the call differs from
the one before the call. -/
theorem setCurrentProfile_spec (s : SchedulerModuleState) (newName : String) (signal : Bool)
    (hne : s.m_profiles ≠ []) :
    ∃ r, setCurrentProfile s newName signal = some r ∧
      (newName ∈ s.m_profiles → r.1.m_currentProfile = newName) ∧
      (newName ∉ s.m_profiles → s.m_profiles.head? = some r.1.m_currentProfile) ∧
      { r.1 with m_currentProfile := s.m_currentProfile } = s ∧
      (Signal.currentProfileChanged ∈ r.2 ↔
        signal = true ∧ r.1.m_currentProfile ≠ s.m_currentProfile) ∧
      (r.2 = [Signal.currentProfileChanged] ∨ r.2 = []) := by
  obtain ⟨first, hfirst⟩ : ∃ first, s.m_profiles.head? = some first := by
    cases hl : s.m_profiles with
    | nil => exact absurd hl hne
    | cons a l => exact ⟨a, rfl⟩
  unfold setCurrentProfile
  by_cases hmem : newName ∈ s.m_profiles
  · rw [if_pos hmem]
    refine ⟨_, rfl, fun _ => rfl, fun h => absurd hmem h, rfl, ?_, ?_⟩
    · cases signal <;> by_cases hc : newName = s.m_currentProfile <;> simp [hc]
    · cases signal <;> by_cases hc : newName = s.m_currentProfile <;> simp [hc]
  · rw [if_neg hmem]
    simp only [hfirst]
    refine ⟨_, rfl, fun h => absurd h hmem, fun _ => rfl, rfl, ?_, ?_⟩
    · cases signal
      · simp
      · by_cases hc : s.m_currentProfile = first
        · simp [hc]
        · have hc2 : ¬ first = s.m_currentProfile := fun h => hc h.symm
          simp [hc, hc2]
    · cases signal <;> by_cases hc : s.m_currentProfile = first <;> simp [hc]

/-- Witness of C25: the list Default, Simulators with Default selected; the
name Rig is not in the list, so the first entry stays selected and nothing is
emitted. -/
theorem setCurrentProfile_spec_witness :
    ∃ r, setCurrentProfile { freshState with m_profiles := ["Default", "Simulators"] } "Rig" true
        = some r ∧ r.1.m_currentProfile = "Default" ∧ r.2 = [] :=
  have h := setCurrentProfile_spec { freshState with m_profiles := ["Default", "Simulators"] }
    "Rig" true (by decide)
  match h with
  | ⟨r, hr, _, _, _, _, _⟩ => ⟨r, hr, by
      have hv : setCurrentProfile { freshState with m_profiles := ["Default", "Simulators"] }
          "Rig" true = some ({ freshState with m_profiles := ["Default", "Simulators"] }, []) := by
        decide
      rw [hv] at hr
      cases hr
      exact ⟨rfl, rfl⟩⟩

/-- Counterexample to C26 as stated: the timer is active with r = 1 ms left and
setupNextIteration(nextState, ms) is called with ms = -2147483648, the smallest
int.  The int subtraction ms - r overflows (it wraps to 2147483647), so the
timer is restarted with 2147483647 ms, which is larger than max(0, ms) = 0. -/
theorem setupNextIteration_overflow_exceeds_bound :
    timerInterval (setupNextIteration
        { freshState with
          m_iterationTimer := { isActive := true, interval := 1000, remainingTime := 1 } }
        1 (-2147483648)) = 2147483647 ∧
      ¬ (timerInterval (setupNextIteration
        { freshState with
          m_iterationTimer := { isActive := true, interval := 1000, remainingTime := 1 } }
        1 (-2147483648)) ≤ max 0 (-2147483648)) := by
  decide

/-- C26 (as amended): when the iteration timer is active with remaining time
r >= 0, for every int ms for which the int subtraction ms - r does not
overflow (ms - r >= -2^31), negative ms included, setupNextIteration(nextState,
ms) stops the timer and restarts it with interval max(0, ms - r); the
resulting timerInterval() is that interval, is never negative and is never
larger than max(0, ms). -/
theorem setupNextIteration_interval_bounds (s : SchedulerModuleState)
    (nextState : SchedulerTimerState) (ms : Int)
    (hact : (iterationTimer s).isActive = true)
    (hr : 0 ≤ (iterationTimer s).remainingTime)
    (hms : ms < 2 ^ 31)
    (hlo : -2 ^ 31 ≤ ms - (iterationTimer s).remainingTime) :
    iterationTimer (setupNextIteration s nextState ms) =
        { isActive := true
          interval := max 0 (ms - (iterationTimer s).remainingTime)
          remainingTime := max 0 (ms - (iterationTimer s).remainingTime) } ∧
      timerInterval (setupNextIteration s nextState ms) =
        max 0 (ms - (iterationTimer s).remainingTime) ∧
      0 ≤ timerInterval (setupNextIteration s nextState ms) ∧
      timerInterval (setupNextIteration s nextState ms) ≤ max 0 ms := by
  have hhi : ms - (iterationTimer s).remainingTime < 2 ^ 31 := by omega
  have hact1 : (iterationTimer (setTimerState s nextState)).isActive = true := hact
  have hrem : (iterationTimer (setTimerState s nextState)).remainingTime =
      (iterationTimer s).remainingTime := rfl
  have hint : timerInterval (setupNextIteration s nextState ms) =
      max 0 (ms - (iterationTimer s).remainingTime) := by
    unfold setupNextIteration
    simp only [hact1, hrem, if_true, wrapInt32_of_range _ hlo hhi]
    rfl
  have htimer : iterationTimer (setupNextIteration s nextState ms) =
      { isActive := true
        interval := max 0 (ms - (iterationTimer s).remainingTime)
        remainingTime := max 0 (ms - (iterationTimer s).remainingTime) } := by
    unfold setupNextIteration
    simp only [hact1, hrem, if_true, wrapInt32_of_range _ hlo hhi]
    rfl
  refine ⟨htimer, hint, ?_, ?_⟩
  · rw [hint]
    exact le_max_left 0 _
  · rw [hint]
    exact max_le_max (le_refl 0) (by omega)

/-- Witness of C26 (as amended): 900 ms left on the timer and a requested delay
of -50 ms restart it with 0 ms. -/
theorem setupNextIteration_interval_bounds_witness :
    timerInterval (setupNextIteration
        { freshState with
          m_iterationTimer := { isActive := true, interval := 1000, remainingTime := 900 } }
        1 (-50)) = max 0 (-50 - 900) :=
  (setupNextIteration_interval_bounds
    { freshState with
      m_iterationTimer := { isActive := true, interval := 1000, remainingTime := 900 } }
    1 (-50) rfl (by decide) (by decide) (by decide)).2.1

end Ekos

/-! # EkosLive node manager -/

namespace EkosLive

/-- A refused reply that arrives while the retry counter is below the maximum
is retried: the counter is incremented and the only effect is the single-shot
timer for authenticate(). -/
theorem onResult_refused_below_max (w N : Nat) (m : NodeManager) (reply : QNetworkReply)
    (hreply : reply.error = NetworkError.ConnectionRefusedError)
    (hlt : m.m_ReconnectTries < N) :
    onResult w N m reply =
      ({ m with m_ReconnectTries := postIncrement w m.m_ReconnectTries },
        [Effect.singleShotAuthenticate]) := by
  unfold onResult
  simp [hreply, hlt]

/-- A refused reply that arrives with the retry counter at or above the
maximum is not retried: the counter is reset and the error is emitted. -/
theorem onResult_refused_at_max (w N : Nat) (m : NodeManager) (reply : QNetworkReply)
    (hreply : reply.error = NetworkError.ConnectionRefusedError)
    (hge : ¬ m.m_ReconnectTries < N) :
    onResult w N m reply =
      ({ m with m_ReconnectTries := 0 },
        [Effect.authenticationError (AuthenticationErrorText.network reply.errorString)]) := by
  unfold onResult
  simp [hreply, hge]

/-- After a run of refused replies no longer than the maximum, started with
the counter at c, the counter has advanced by the length of the run. -/
theorem afterReplies_refused_count (w N : Nat) (hN : N < 2 ^ w) (run : List QNetworkReply)
    (hrun : ∀ r ∈ run, r.error = NetworkError.ConnectionRefusedError) (m : NodeManager)
    (hlen : m.m_ReconnectTries + run.length ≤ N) :
    (afterReplies w N run m).m_ReconnectTries = m.m_ReconnectTries + run.length := by
  induction run generalizing m with
  | nil => rfl
  | cons r rs ih =>
    have hr : r.error = NetworkError.ConnectionRefusedError := hrun r (List.mem_cons_self _ _)
    have hrs : ∀ x ∈ rs, x.error = NetworkError.ConnectionRefusedError :=
      fun x hx => hrun x (List.mem_cons_of_mem _ hx)
    simp only [List.length_cons] at hlen
    have hlt : m.m_ReconnectTries < N := by omega
    have hstep : (onResult w N m r).1.m_ReconnectTries = m.m_ReconnectTries + 1 := by
      rw [onResult_refused_below_max w N m r hr hlt]
      show postIncrement w m.m_ReconnectTries = m.m_ReconnectTries + 1
      unfold postIncrement
      exact Nat.mod_eq_of_lt (by omega)
    show (afterReplies w N rs (onResult w N m r).1).m_ReconnectTries =
      m.m_ReconnectTries + (rs.length + 1)
    rw [ih hrs (onResult w N m r).1 (by rw [hstep]; omega), hstep]
    omega

/-- C21: NodeManager::onResult retries a refused connection up to
RECONNECT_MAX_TRIES times (3 by the comment in the code; the theorem holds for
every value N of the constant that fits the retry counter).  In an unbroken
run of connection-refused replies starting with the retry counter at 0, each
of the first N replies schedules a re-authentication and emits no error, the
next refused reply emits authenticationError instead of retrying, and after
any reply that is not retried (refused beyond the maximum, other error, parse
error, rejected or successful authentication) the retry counter is 0. -/
theorem onResult_retries_refused_up_to_max (w N : Nat) (m : NodeManager)
    (run : List QNetworkReply) (reply : QNetworkReply)
    (hN : N < 2 ^ w) (h0 : m.m_ReconnectTries = 0)
    (hrun : ∀ r ∈ run, r.error = NetworkError.ConnectionRefusedError)
    (hreply : reply.error = NetworkError.ConnectionRefusedError) :
    (run.length < N →
        (onResult w N (afterReplies w N run m) reply).2 = [Effect.singleShotAuthenticate]) ∧
      (run.length = N →
        (onResult w N (afterReplies w N run m) reply).2 =
            [Effect.authenticationError (AuthenticationErrorText.network reply.errorString)] ∧
          (onResult w N (afterReplies w N run m) reply).1.m_ReconnectTries = 0) ∧
      (∀ (m1 : NodeManager) (r1 : QNetworkReply),
        ¬ (r1.error = NetworkError.ConnectionRefusedError ∧ m1.m_ReconnectTries < N) →
        (onResult w N m1 r1).1.m_ReconnectTries = 0) := by
  refine ⟨?_, ?_, ?_⟩
  · intro hlen
    have hc := afterReplies_refused_count w N hN run hrun m (by omega)
    rw [onResult_refused_below_max w N _ reply hreply (by omega)]
  · intro hlen
    have hc := afterReplies_refused_count w N hN run hrun m (by omega)
    rw [onResult_refused_at_max w N _ reply hreply (by omega)]
    exact ⟨rfl, rfl⟩
  · intro m1 r1 hnot
    unfold onResult
    cases herr : r1.error with
    | NoError =>
      simp only [ne_eq, not_true_eq_false, if_false]
      cases r1.content with
      | parseError e => rfl
      | document object =>
        by_cases hs : object.success = false
        · simp [hs]
        · simp [hs]
    | ConnectionRefusedError =>
      have hge : ¬ m1.m_ReconnectTries < N := fun h => hnot ⟨herr, h⟩
      simp [hge]
    | OtherError => simp

/-- Witness of C21: RECONNECT_MAX_TRIES = 3 and a 16 bit counter; after two
refused replies the third is still retried, and after three the fourth emits
the error and leaves the counter at 0. -/
theorem onResult_retries_refused_up_to_max_witness :
    (onResult 16 3 (afterReplies 16 3 [refusedReply, refusedReply] sampleManager)
        refusedReply).2 = [Effect.singleShotAuthenticate] ∧
      (onResult 16 3 (afterReplies 16 3 [refusedReply, refusedReply, refusedReply]
        sampleManager) refusedReply).2 =
        [Effect.authenticationError (AuthenticationErrorText.network refusedReply.errorString)] ∧
      (onResult 16 3 (afterReplies 16 3 [refusedReply, refusedReply, refusedReply]
        sampleManager) refusedReply).1.m_ReconnectTries = 0 :=
  have h2 := onResult_retries_refused_up_to_max 16 3 sampleManager
    [refusedReply, refusedReply] refusedReply (by decide) rfl
    (by intro r hr; simp at hr; rw [hr]; rfl) rfl
  have h3 := onResult_retries_refused_up_to_max 16 3 sampleManager
    [refusedReply, refusedReply, refusedReply] refusedReply (by decide) rfl
    (by intro r hr; simp at hr; rw [hr]; rfl) rfl
  ⟨h2.1 (by decide), (h3.2.1 rfl).1, (h3.2.1 rfl).2⟩

/-- What setDisconnected does: for a signal sent by a node it emits
disconnected exactly when some node is not connected. -/
theorem setDisconnected_emits_iff (m : NodeManager) (sender : String) :
    Effect.disconnected ∈ setDisconnected m (some sender) ↔
      ∃ node ∈ m.m_Nodes, node.2.isConnected = false := by
  unfold setDisconnected isConnected
  by_cases h : (m.m_Nodes.all fun node => node.2.isConnected) = false
  · simp only [h, if_true, List.mem_singleton, true_iff]
    simpa using h
  · simp only [h, if_false, List.not_mem_nil, false_iff]
    simpa using h

/-- C22 (the code at the failing input): with the node media disconnected and
the node message still connected, the disconnect signal of media makes
setDisconnected emit disconnected, although a node of the manager is still
connected. -/
theorem setDisconnected_emits_while_a_node_is_connected :
    setDisconnected sampleManager (some "media") = [Effect.disconnected] ∧
      (∃ node ∈ sampleManager.m_Nodes, node.2.isConnected = true) ∧
      ¬ (Effect.disconnected ∈ setDisconnected sampleManager (some "media") →
          ∀ node ∈ sampleManager.m_Nodes, node.2.isConnected = false) := by
  refine ⟨by decide, ⟨("message", { isConnected := true, authResponse := none }), by decide, rfl⟩,
    ?_⟩
  intro h
  have hall := h (by decide)
  have hmsg := hall ("message", { isConnected := true, authResponse := none }) (by decide)
  exact absurd hmsg (by decide)

end EkosLive
